import Mathlib

/-!
Verification of the IS MUNI file-store client (`files.py`).

The Python source is shallowly embedded: wire I/O is represented by an
oracle (`Env`) supplying HTTP responses and local file contents, and every
operation of the `Connection` class is a function returning its result
(`Except PyExc α`, exceptions made explicit) together with the ordered list
of wire calls it performed.  String manipulation helpers of `posixpath`
are implemented structurally, following CPython's definitions.
-/

namespace IS

/-! ## Python exceptions

`FileAPIException` carries a message and an optional `api_error` string;
`FileDoesNotExistException` and `IsDirectoryException` are its subclasses
(constructed with the path as message and `api_error = None`).  The other
constructors model built-in Python exceptions that can escape the code.
`diverge` marks inputs on which a source-level loop runs forever (the
embedding is total, so divergence is reified as an outcome). -/
inductive PyExc where
  | fileAPI (msg : String) (apiError : Option String)
  | fileDoesNotExist (path : String)
  | isDirectory (path : String)
  | keyError (key : String)
  | indexError
  | stopIteration
  | valueError (msg : String)
  | jsonDecodeError
  | attributeError
  | typeError
  | diverge
deriving DecidableEq

/-- `isinstance(ex, FileAPIException)` together with the `api_error`
attribute: subclasses inherit `api_error = None` from
`FileAPIException.__init__`'s default. -/
def PyExc.fileAPIError : PyExc → Option (Option String)
  | .fileAPI _ ae => some ae
  | .fileDoesNotExist _ => some none
  | .isDirectory _ => some none
  | _ => none

/-- Is the exception a `FileDoesNotExistException`? -/
def PyExc.isFileDoesNotExist : PyExc → Bool
  | .fileDoesNotExist _ => true
  | _ => false

/-! ## Python string helpers (over `List Char` so that they reduce) -/

/-- Contiguous-sublist test (this Lean version has no `List.isInfixOf`). -/
def infixChars (needle : List Char) : List Char → Bool
  | [] => needle.isEmpty
  | c :: t => needle.isPrefixOf (c :: t) || infixChars needle t

/-- Python `needle in hay` on strings: contiguous substring test. -/
def pyIn (needle hay : String) : Bool :=
  infixChars needle.data hay.data

/-- Python `s.startswith(pre)`. -/
def pyStartsWith (s pre : String) : Bool :=
  pre.data.isPrefixOf s.data

/-- Python `s.endswith(suf)`; with `suf = "/"` this is also the loop
condition `s[-1:] == "/"` of `_mkdir`. -/
def pyEndsWith (s suf : String) : Bool :=
  suf.data.isSuffixOf s.data

/-- Python truthy-`or` for an optional string: `a or b` yields `b` when
`a` is `None` or the empty string. -/
def pyOrStr (a : Option String) (b : String) : String :=
  match a with
  | some s => if s = "" then b else s
  | none => b

/-! ## `posixpath` (CPython's pure-path functions, `sep = '/'`) -/

/-- `p.rfind('/') + 1` of CPython's `posixpath`: index one past the last
separator, `0` when there is none. -/
def rfindSlashSucc (l : List Char) : Nat :=
  match l.reverse.findIdx? (· = '/') with
  | none => 0
  | some k => l.length - k

/-- Strip trailing `'/'` characters (`head.rstrip(sep)`). -/
def rstripSlashes (l : List Char) : List Char :=
  (l.reverse.dropWhile (· = '/')).reverse

/-- `posixpath.basename`: everything after the last separator. -/
def posix_basename (p : String) : String :=
  ⟨p.data.drop (rfindSlashSucc p.data)⟩

/-- `posixpath.dirname`: the part up to the last separator; trailing
separators are stripped unless the result consists of separators only. -/
def posix_dirname (p : String) : String :=
  let head := p.data.take (rfindSlashSucc p.data)
  if head ≠ [] ∧ head.any (· ≠ '/') then ⟨rstripSlashes head⟩ else ⟨head⟩

/-- `posixpath.join` restricted to two components, as used by the source. -/
def posix_join (a b : String) : String :=
  if pyStartsWith b "/" then b
  else if a = "" ∨ pyEndsWith a "/" then a ++ b
  else a ++ "/" ++ b

/-- Python `str.split('/')`. -/
def splitOnSlash : List Char → List (List Char)
  | [] => [[]]
  | c :: cs =>
    let r := splitOnSlash cs
    if c = '/' then [] :: r
    else
      match r with
      | h :: t => (c :: h) :: t
      | [] => [[c]]

/-- `'/'.join(comps)`. -/
def intercalateSlash : List (List Char) → List Char
  | [] => []
  | [x] => x
  | x :: xs => x ++ '/' :: intercalateSlash xs

/-- `posixpath.normpath`, following CPython: collapse empty and `.`
components, resolve `..` where possible, keep one or two leading
separators, return `"."` for the empty path. -/
def posix_normpath (path : String) : String :=
  if path = "" then "." else
  let initialSlashes : Nat :=
    if pyStartsWith path "/" then
      if pyStartsWith path "//" ∧ ¬ pyStartsWith path "///" then 2 else 1
    else 0
  let comps := splitOnSlash path.data
  let newComps := comps.foldl (fun acc comp =>
    if comp = [] ∨ comp = ['.'] then acc
    else if comp ≠ ['.', '.'] ∨ (initialSlashes = 0 ∧ acc = [])
        ∨ (acc ≠ [] ∧ acc.getLast? = some ['.', '.']) then acc ++ [comp]
    else acc.dropLast) []
  let res := List.replicate initialSlashes '/' ++ intercalateSlash newComps
  if res = [] then "." else ⟨res⟩

/-! ## Timestamps

`dateutil.parser.isoparse` and `iscommon.localize_timestamp` are treated
as the opaque pure utilities the design describes: a parsed instant is
identified by its source string, and localization marks the attachment of
the local timezone without changing the instant. -/

structure PyDatetime where
  iso : String
  localized : Bool := false
deriving DecidableEq

def isoparse (s : String) : PyDatetime := ⟨s, false⟩

def localize_timestamp (d : PyDatetime) : PyDatetime := ⟨d.iso, true⟩

/-- The components of a `datetime` instant that `strftime("%Y%m%d%H%M")`
reads (`mkdrop`'s `deadline` argument). -/
structure DeadlineInstant where
  year : Nat
  month : Nat
  day : Nat
  hour : Nat
  minute : Nat
deriving DecidableEq

def pad2 (n : Nat) : String :=
  if n < 10 then "0" ++ toString n else toString n

def pad4 (n : Nat) : String :=
  if n < 10 then "000" ++ toString n
  else if n < 100 then "00" ++ toString n
  else if n < 1000 then "0" ++ toString n
  else toString n

/-- `deadline.strftime("%Y%m%d%H%M")`. -/
def strftime_YmdHM (d : DeadlineInstant) : String :=
  pad4 d.year ++ pad2 d.month ++ pad2 d.day ++ pad2 d.hour ++ pad2 d.minute

/-! ## Wire records (typed schemas of the JSON the code consumes) -/

/-- A generic JSON value, for the parts of `rfmgr.pl` responses the code
accesses dynamically (`mkdrop`'s permission view). -/
inductive JVal where
  | jnull
  | jbool (b : Bool)
  | jnum (n : Int)
  | jstr (s : String)
  | jarr (xs : List JVal)
  | jobj (kvs : List (String × JVal))

/-- Python `d[k]` on a decoded JSON dict: `KeyError` when absent. -/
def dictIndex (kvs : List (String × JVal)) (k : String) : Except PyExc JVal :=
  match kvs.lookup k with
  | some v => .ok v
  | none => .error (.keyError k)

/-- Python `v[k]` where `v` should be a dict. -/
def jvalIndex (v : JVal) (k : String) : Except PyExc JVal :=
  match v with
  | .jobj kvs => dictIndex kvs k
  | _ => .error .typeError

/-- Python `next(iter(d.keys()))`: first key of the dict, `StopIteration`
when it is empty. -/
def jvalFirstKey (v : JVal) : Except PyExc String :=
  match v with
  | .jobj ((k, _) :: _) => .ok k
  | .jobj [] => .error .stopIteration
  | _ => .error .attributeError

/-- The embedded "object" record of a file node (`data["objekty"]["objekt"][i]`).
Numeric wire fields (`vlozil_uco`, `objekt_id`) are modelled after the
`int(...)` conversion the code applies. -/
structure RawObj where
  cesta : String
  jmeno_souboru : String
  mime_type : Option String
  vlozil_uco : Int
  vlozeno : String
  objekt_id : Int
deriving DecidableEq

/-- The fields of a raw server node that `FileMeta.__init__` reads.
`objekty` models the `{"objekt": [...]}` wrapper: when the key is
present the wrapper dict is nonempty, so the source's truthiness check
`"objekty" in data and len(data["objekty"])` is `objekty.isSome`.
`pocet_poduzlu`, `zmenil_uco` and `mam_precteno` are modelled after the
`int(...)` conversions the code applies to them. -/
structure RawNodeCore where
  cesta : String
  zkratka : String
  nazev : Option String
  popis : Option String
  mam_precteno : Option Int
  objekty : Option (List RawObj)
  pocet_poduzlu : Int
  zmenil_uco : Int
  zmeneno : String
deriving DecidableEq

/-- A raw node of a `fmgr_api` response, with the one level of children
(`data["uzel"][0]["poduzly"]["poduzel"]`) that `list_directory` reads. -/
structure RawNode extends RawNodeCore where
  poduzly : Option (List RawNodeCore)
deriving DecidableEq

/-- The decoded body of a `fmgr_api` metadata query: an optional error
string under `"chyba"` and the node list under `"uzel"`. -/
structure InfoData where
  chyba : Option String := none
  uzel : Option (List RawNode) := none
deriving DecidableEq

/-- The decoded body of a `rfmgr.pl` response: the optional error string
under `"chyba"` (typed `str` per `FileAPIException.api_error`), other keys
kept generic for `mkdrop`'s permission-view access. -/
structure RfmgrData where
  chyba : Option String := none
  rest : List (String × JVal) := []

/-! ## Parsed metadata (`FileMeta` / `DirMeta`) -/

/-- The attributes `FileMeta.__init__` sets. -/
structure MetaCore where
  ispath : String
  shortname : String
  name : Option String
  annotation : Option String
  read : Bool
  mime : Option String
  author : Int
  change_time : PyDatetime
  objid : Option Int
deriving DecidableEq

/-- `FileMeta` or `DirMeta`: a directory additionally carries its list of
entries (`DirMeta.entries`, filled by `list_directory`). -/
inductive Meta where
  | file (core : MetaCore)
  | dir (core : MetaCore) (entries : List Meta)

def Meta.core : Meta → MetaCore
  | .file c => c
  | .dir c _ => c

/-- The `dir` attribute (`False` for `FileMeta`, `True` for `DirMeta`). -/
def Meta.isDir : Meta → Bool
  | .file _ => false
  | .dir _ _ => true

def Meta.entries : Meta → List Meta
  | .file _ => []
  | .dir _ es => es

/-- `FileMeta.__init__` (the attribute-setting part; logging omitted).
When an embedded object exists, its path and filename supersede the
node's own path and shortname, and `mime`/`author`/`change_time`/`objid`
come from the object; otherwise `mime` and `objid` are `None` and
author/time come from the node's `zmenil_uco`/`zmeneno`.  An `objekty`
wrapper with an empty `objekt` list makes `data["objekty"]["objekt"][0]`
raise `IndexError`. -/
def FileMeta_init (data : RawNodeCore) : Except PyExc MetaCore :=
  let read := (data.mam_precteno.getD 0) ≠ 0
  match data.objekty with
  | some [] => .error .indexError
  | some (obj :: _) =>
    .ok { ispath := obj.cesta
          shortname := obj.jmeno_souboru
          name := some (match data.nazev with
                        | some n => n
                        | none => obj.jmeno_souboru)
          annotation := data.popis
          read := read
          mime := obj.mime_type
          author := obj.vlozil_uco
          change_time := localize_timestamp (isoparse obj.vlozeno)
          objid := some obj.objekt_id }
  | none =>
    .ok { ispath := data.cesta
          shortname := data.zkratka
          name := data.nazev
          annotation := data.popis
          read := read
          mime := none
          author := data.zmenil_uco
          change_time := localize_timestamp (isoparse data.zmeneno)
          objid := none }

/-- `_meta_from_raw`: branches on `int(raw["pocet_poduzlu"])` — zero
children yields a `FileMeta`, nonzero a `DirMeta` (whose `entries` start
empty; `DirMeta.__init__` does not parse children). -/
def meta_from_raw (raw : RawNodeCore) : Except PyExc Meta :=
  if raw.pocet_poduzlu = 0 then
    (FileMeta_init raw).map .file
  else
    (FileMeta_init raw).map (fun c => .dir c [])

/-- `DirMeta.get`: first entry whose `shortname` equals `filename`. -/
def dir_get (entries : List Meta) (filename : String) : Option Meta :=
  entries.find? (fun e => MetaCore.shortname (Meta.core e) == filename)

/-! ## The effect model

A wire call is an HTTP GET (by URL) or an HTTP POST to the fixed
`rfmgr.pl` endpoint (form fields and file attachments).  The environment
`Env` is the deterministic oracle answering every call; a computation is
its result together with the ordered trace of wire calls it performed —
calls made before an exception stay in the trace, as in Python. -/

/-- A file attachment of a multipart POST: field name, filename, bytes. -/
structure FilePart where
  field : String
  filename : String
  content : List Nat
deriving DecidableEq

inductive WireCall where
  | get (url : String)
  | post (args : List (String × String)) (files : List FilePart)
deriving DecidableEq

/-- Response to a GET: body text, its JSON decoding (meaningful only for
metadata queries), raw bytes (`resp.content`), encoding and the
`content-type` header. -/
structure HttpGetResp where
  text : String
  loads : Option InfoData := none
  content : List Nat := []
  encoding : Option String := none
  contentType : Option String := none

/-- Outcome of `requests.get`: a network-level exception or a response. -/
inductive GetOutcome where
  | netErr (msg : String)
  | ok (r : HttpGetResp)

/-- Outcome of `requests.post`: a network-level exception or a response
(status code, body text, and its JSON decoding when it parses). -/
inductive PostOutcome where
  | netErr (msg : String)
  | ok (status : Nat) (text : String) (loads : Option RfmgrData)

/-- The wire oracle: responses to GETs and POSTs, and the bytes of local
files (`open(path, 'rb').read()`). -/
structure Env where
  get : String → GetOutcome
  post : List (String × String) → List FilePart → PostOutcome
  localFile : String → List Nat

/-- A computation of the embedded client: result plus wire-call trace. -/
def ISM (α : Type) : Type := Except PyExc α × List WireCall

/-- The result component. -/
def ISM.res {α : Type} (m : ISM α) : Except PyExc α := m.1

/-- The trace component. -/
def ISM.trace {α : Type} (m : ISM α) : List WireCall := m.2

def ISM.pure' {α : Type} (a : α) : ISM α := (.ok a, [])

def ISM.bind' {α β : Type} (x : ISM α) (f : α → ISM β) : ISM β :=
  match x with
  | (.error e, t) => (.error e, t)
  | (.ok a, t) => ((f a).1, t ++ (f a).2)

instance : Monad ISM where
  pure := ISM.pure'
  bind := ISM.bind'

/-- Python `try/except` semantics: wire calls made before the exception
stay in the trace, the handler's calls follow them. -/
def pyTry {α : Type} (body : ISM α) (handler : PyExc → ISM α) : ISM α :=
  match body with
  | (.ok a, t) => (.ok a, t)
  | (.error e, t) => ((handler e).1, t ++ (handler e).2)

instance : MonadExceptOf PyExc ISM where
  throw e := (.error e, [])
  tryCatch := pyTry

/-- Record one wire call. -/
def record (c : WireCall) : ISM Unit := (.ok (), [c])

/-- Embed a pure fallible computation (a Python expression that may raise). -/
def liftExc {α : Type} : Except PyExc α → ISM α
  | .ok a => (.ok a, [])
  | .error e => (.error e, [])

/-! ## Transport (`Connection._get`, `Connection._rfmgr`) -/

/-- `Connection._get`: one GET; a `requests` exception becomes a
`FileAPIException("Connection error: ...")`. -/
def conn_get (env : Env) (url : String) : ISM HttpGetResp := do
  record (.get url)
  match env.get url with
  | .netErr msg => throw (.fileAPI ("Connection error: " ++ msg) none)
  | .ok r => pure r

/-- The "non-personal account" sentinel prefix (literal bytes of the
source file). -/
def NONPERSONAL_MSG : String := "Majitel neosobn??ho ????tu"

/-- `args["furl"] += "/"` when the folder URL does not end with `/`.
`args` is a dict, so keys are unique; the update keeps the entry in
place.  A `None` folder URL would make `.endswith` raise
`AttributeError`. -/
def norm_furl (args : List (String × Option String)) :
    Except PyExc (List (String × Option String)) :=
  match args.lookup "furl" with
  | none => .ok args
  | some none => .error .attributeError
  | some (some f) =>
    if pyEndsWith f "/" then .ok args
    else .ok (args.map (fun kv => if kv.1 = "furl" then (kv.1, some (f ++ "/")) else kv))

/-- `for k in list(args): if args[k] is None: del args[k]`. -/
def drop_none_args (args : List (String × Option String)) : List (String × String) :=
  args.filterMap (fun kv => kv.2.map (fun v => (kv.1, v)))

/-- `Connection._rfmgr`: normalize the folder URL, strip absent fields,
POST, then classify the response: non-200 status, the non-personal
account sentinel, a body not starting with `{`, or a decoded error field
each raise a `FileAPIException` (the error-field case carrying the
server's literal string as `api_error`); otherwise the decoded body is
returned. -/
def rfmgr (env : Env) (args : List (String × Option String))
    (files : List FilePart) : ISM RfmgrData := do
  -- IS breaks if directory URL does not end with /
  let args ← liftExc (norm_furl args)
  let args := drop_none_args args
  record (.post args files)
  match env.post args files with
  | .netErr msg => throw (.fileAPI ("Connection error: " ++ msg) none)
  | .ok status text loads =>
    if status ≠ 200 then
      throw (.fileAPI ("rfmgr.pl returned HTTP code " ++ toString status) none)
    else if pyStartsWith text NONPERSONAL_MSG then
      throw (.fileAPI "rfmgr.pl API error: not permitted, see IS non-personal account settings" none)
    else if ¬ pyStartsWith text "\x7b" then
      throw (.fileAPI "rfmgr.pl API error: unexpected resultformat, probably bad request" none)
    else
      match loads with
      | none => throw .jsonDecodeError
      | some data =>
        match data.chyba with
        | some ch => throw (.fileAPI ("rfmgr.pl API error: " ++ ch) (some ch))
        | none => pure data

/-! ## Directory/file operations -/

/-- A path given literally or through a previously obtained metadata
node (`Union[str, FileMeta]`). -/
inductive PathOrMeta where
  | path (p : String)
  | meta (m : Meta)

/-- `if not isinstance(path, str): path = path.ispath`. -/
def resolve_path : PathOrMeta → String
  | .path p => p
  | .meta m => MetaCore.ispath (Meta.core m)

/-- The metadata-query URL of `Connection._get_info`. -/
def fmgr_api_url (path : String) : String :=
  "https://is.muni.cz/auth/dok/fmgr_api?url=" ++ path ++ ";format=json"

/-- The server's "not found" sentinel (literal bytes of the source file). -/
def NOT_FOUND_MSG : String := "Zadan?? slo??ka nebo soubor nebyl nalezen."

/-- `Connection._get_info`: one metadata GET; a body that fails to decode
as JSON raises a `FileAPIException`; a decoded error equal to the
"not found" sentinel raises `FileDoesNotExistException`, any other
decoded error a plain `FileAPIException`. -/
def get_info (env : Env) (p : PathOrMeta) : ISM InfoData := do
  let path := resolve_path p
  let r ← conn_get env (fmgr_api_url path)
  match r.loads with
  | none =>
    throw (.fileAPI ("Invalid reply format, probably forbidden access:\n" ++ r.text) none)
  | some data =>
    match data.chyba with
    | some emsg =>
      if emsg = NOT_FOUND_MSG then throw (.fileDoesNotExist path)
      else throw (.fileAPI ("File manager API error: " ++ emsg) none)
    | none => pure data

/-- The loop `for i in data["uzel"][0]["poduzly"]["poduzel"]:
dirmeta._append(i)`: parse each child with `_meta_from_raw`, stopping at
the first exception. -/
def parse_children : List RawNodeCore → Except PyExc (List Meta)
  | [] => .ok []
  | c :: cs => do
    let m ← meta_from_raw c
    let ms ← parse_children cs
    pure (m :: ms)

/-- `Connection.list_directory`: query the path, force a `DirMeta` on the
root node (`DirMeta(data["uzel"][0], ...)`, entries initially empty) and
append one parsed level of children. -/
def list_directory (env : Env) (p : PathOrMeta) : ISM Meta := do
  let data ← get_info env p
  match data.uzel with
  | none => throw (.keyError "uzel")
  | some [] => throw .indexError
  | some (node :: _) =>
    let core ← liftExc (FileMeta_init node.toRawNodeCore)
    match node.poduzly with
    | some children =>
      let entries ← liftExc (parse_children children)
      pure (.dir core entries)
    | none => pure (.dir core [])

/-- `Connection.file_info`: query the path and parse the root node with
`_meta_from_raw` (no children expanded). -/
def file_info (env : Env) (p : PathOrMeta) : ISM Meta := do
  let raw ← get_info env p
  match raw.uzel with
  | none => throw (.keyError "uzel")
  | some [] => throw .indexError
  | some (node :: _) => liftExc (meta_from_raw node.toRawNodeCore)

/-- The `FileData` record `get_file` returns. -/
structure FileData where
  data : List Nat
  charset : Option String
  content_type : String
  meta : Option Meta

/-- `Connection.get_file`: download the raw content first, then fetch the
metadata (download cannot report 404, the metadata query can); raise
`IsDirectoryException` when the metadata says directory; otherwise return
bytes, charset, content type and metadata. -/
def get_file (env : Env) (p : PathOrMeta) : ISM FileData := do
  let path := resolve_path p
  let resp ← conn_get env ("https://is.muni.cz/auth" ++ path)
  -- get meta after the file was downloaded; file download cannot get 404,
  -- but this can
  let meta ← file_info env (.path path)
  if Meta.isDir meta then throw (.isDirectory path)
  pure { data := resp.content
         charset := resp.encoding
         content_type := resp.contentType.getD "text/plain"
         meta := some meta }

/-! ## Conflict-aware upload -/

inductive OnConflict where
  | Error
  | Overwrite
  | Rename
  | Ignore
  | UpdateIfDifferent
deriving DecidableEq

/-- Python `str(self)` of the enum member. -/
def OnConflict.pyStr : OnConflict → String
  | .Error => "OnConflict.Error"
  | .Overwrite => "OnConflict.Overwrite"
  | .Rename => "OnConflict.Rename"
  | .Ignore => "OnConflict.Ignore"
  | .UpdateIfDifferent => "OnConflict.UpdateIfDifferent"

/-- `OnConflict.to_is`: the wire collision code; only the three policies
the server understands convert, the rest raise `ValueError`. -/
def OnConflict.to_is : OnConflict → Except PyExc String
  | .Error => .ok "er"
  | .Overwrite => .ok "wr"
  | .Rename => .ok "re"
  | c => .error (.valueError ("Cannot convert " ++ c.pyStr ++ " to IS mode"))

/-- The wire-upload step of `upload_file` (source lines 283-290): open the
local file and POST it with the collision code of the resolved policy. -/
def upload_post (env : Env) (file_path furl basename : String)
    (long_name description : Option String) (on_conflict : OnConflict) : ISM Unit := do
  let kolize ← liftExc on_conflict.to_is
  let _ ← rfmgr env
      [("op", some "vlso"), ("furl", some furl),
       ("jmeno_souboru_0", some basename),
       ("nazev_0", long_name), ("popis_0", description),
       ("kolize", some kolize)]
      [⟨"FILE_0", basename, env.localFile file_path⟩]
  pure ()

/-- `Connection.upload_file`.  The client-side policies `Ignore` and
`UpdateIfDifferent` are resolved first against a listing of the effective
remote directory; the Python code mutates `on_conflict` and falls through
to a single upload, which the embedding expresses by calling
`upload_post` with the escalated policy on each resolved branch. -/
def upload_file (env : Env) (file_path is_path : String)
    (as_path : Option String := none)
    (long_name : Option String := none)
    (description : Option String := none)
    (on_conflict : OnConflict := .Error) : ISM Unit := do
  let as_path := as_path.getD (posix_basename file_path)
  let basename := posix_basename as_path
  -- dirname returns '' without dir
  let furl := posix_normpath (posix_join is_path (posix_dirname as_path))
  if on_conflict = .Ignore ∨ on_conflict = .UpdateIfDifferent then
    let ls ← list_directory env (.path furl)
    match dir_get (Meta.entries ls) basename with
    | some meta =>
      if on_conflict = .Ignore then
        pure ()  -- nothing to do
      else if long_name ≠ MetaCore.name (Meta.core meta)
          ∨ description ≠ MetaCore.annotation (Meta.core meta) then
        -- differs in name or description: escalate to Overwrite and upload
        upload_post env file_path furl basename long_name description .Overwrite
      else do
        -- NOTE: there is a race between check and actual upload
        -- both on the local side and in IS
        let fd ← get_file env (.meta meta)
        if fd.data ≠ env.localFile file_path then
          -- differs in content: escalate to Overwrite and upload
          upload_post env file_path furl basename long_name description .Overwrite
        else
          pure ()  -- we now know it is not different
    | none =>
      -- no colliding entry: the wire-level policy becomes Error
      upload_post env file_path furl basename long_name description .Error
  else
    upload_post env file_path furl basename long_name description on_conflict

/-! ## Directory creation and drop folders -/

/-- The "long name already exists" sentinel (literal bytes of the source). -/
def EXISTS_MSG : String := "Slo??ka s t??mto n??zvem ji?? existuje"

/-- The "short name already exists" sentinel (literal bytes of the source). -/
def SHORT_EXISTS_MSG : String :=
  "Pokou????te se pou????t zkratku, kter?? ji?? v t??to slo??ce existuje."

/-- The loop `while is_path[-1:] == "/": is_path = posixpath.dirname(is_path)`
of `Connection._mkdir`, with explicit fuel (the source loop need not
terminate; `none` means the fuel ran out). -/
def strip_trailing : Nat → String → Option String
  | 0, _ => none
  | n + 1, p =>
    if pyEndsWith p "/" then strip_trailing n (posix_dirname p) else some p

/-- `Connection._mkdir`: strip trailing separators, split into parent and
short name, issue the create-folder call; a `FileAPIException` whose
`api_error` contains either "already exists" sentinel is swallowed into
`None`, any other exception propagates.  Fuel `is_path.length + 1`
suffices for every input on which the source loop terminates (each
productive iteration shortens the path); exhausted fuel reifies the
source's divergence as `PyExc.diverge`. -/
def mkdir_raw (env : Env) (is_path : String)
    (long_name description : Option String) : ISM (Option RfmgrData) := do
  match strip_trailing (is_path.length + 1) is_path with
  | none => throw .diverge
  | some stripped =>
    let dirname := posix_basename stripped
    let path := posix_dirname stripped
    pyTry
      (do
        let r ← rfmgr env
            [("op", some "vlsl"), ("furl", some path),
             ("zkratka_1", some dirname),
             ("nazev_1", some (pyOrStr long_name dirname)),
             ("popis_1", description)] []
        pure (some r))
      (fun ex =>
        match PyExc.fileAPIError ex with
        | some (some ae) =>
          if ae ≠ "" ∧ (pyIn EXISTS_MSG ae ∨ pyIn SHORT_EXISTS_MSG ae) then
            pure none
          else throw ex
        | some none => throw ex
        | none => throw ex)

/-- `Connection.mkdir`: true iff the directory was actually created. -/
def mkdir (env : Env) (is_path : String)
    (long_name description : Option String) : ISM Bool := do
  let r ← mkdir_raw env is_path long_name description
  pure r.isSome

/-- `Connection.mkdrop`: create the directory (false immediately when it
already existed); open the drop folder's permission view; when a deadline
is given, read the first granted write-mode token from the view's
response and add a time-bounded grant `mode@YYYYMMDDHHMM`; finally enable
the three per-file attributes.  Returns true. -/
def mkdrop (env : Env) (is_path : String)
    (long_name description : Option String)
    (deadline : Option DeadlineInstant) : ISM Bool := do
  let res ← mkdir_raw env is_path long_name description
  match res with
  | none => pure false
  | some _ =>
    let created := if pyEndsWith is_path "/" then is_path else is_path ++ "/"
    let base := posix_dirname (posix_dirname created)
    -- open drop folder
    let res ← rfmgr env
        [("op", some "zmpr2"), ("furl", some base),
         ("akce", some "zxpro"), ("ch", some created)] []
    match deadline with
    | some dt =>
      -- meta = res["pridatRadky"][created]["js"]
      let row ← liftExc (dictIndex res.rest "pridatRadky")
      let row ← liftExc (jvalIndex row created)
      let meta ← liftExc (jvalIndex row "js")
      -- mode = next(iter(meta["prava"]["w"].keys()))
      let prava ← liftExc (jvalIndex meta "prava")
      let w ← liftExc (jvalIndex prava "w")
      let mode ← liftExc (jvalFirstKey w)
      let toTs := strftime_YmdHM dt  -- `to` in the source; keyword in Lean
      let new_mode := mode ++ "@" ++ toTs
      let _ ← rfmgr env
          [("op", some "zmpr"), ("pridat", some new_mode),
           ("furl", some base), ("ch", some created)] []
      pure ()
    | none => pure ()
    -- set attributes (prepend name, UCO, monitor changes)
    let _ ← rfmgr env
        [("op", some "zmat"),
         ("d_atributy_0_pridatprijm", some "pridatprijm"),
         ("d_atributy_0_pridatuco", some "pridatuco"),
         ("d_atributy_0_vsechnacteni", some "vsechnacteni"),
         ("churl_0", some created), ("furl", some base)] []
    pure true

/-! ## Derived notions used by the statements -/

/-- What `_rfmgr`'s folder-URL normalization does to the value itself. -/
def ensure_slash (s : String) : String :=
  if pyEndsWith s "/" then s else s ++ "/"

/-- The argument lists of all POSTs in a trace. -/
def postArgs (t : List WireCall) : List (List (String × String)) :=
  t.filterMap (fun c => match c with | .post a _ => some a | _ => none)

/-- The argument lists of the upload (`op=vlso`) POSTs in a trace. -/
def upload_calls (t : List WireCall) : List (List (String × String)) :=
  (postArgs t).filter (fun a => a.lookup "op" == some "vlso")

/-- The form fields `upload_file`'s wire step sends, after `_rfmgr`'s
folder-URL normalization and absent-field removal. -/
def upload_sent (furl basename : String) (long_name description : Option String)
    (kolize : String) : List (String × String) :=
  drop_none_args
    [("op", some "vlso"), ("furl", some (ensure_slash furl)),
     ("jmeno_souboru_0", some basename),
     ("nazev_0", long_name), ("popis_0", description),
     ("kolize", some kolize)]

/-- The form fields `_mkdir`'s create-folder call sends (after transport
normalization), for the already-stripped path. -/
def mkdir_sent (stripped : String) (long_name description : Option String) :
    List (String × String) :=
  drop_none_args
    [("op", some "vlsl"), ("furl", some (ensure_slash (posix_dirname stripped))),
     ("zkratka_1", some (posix_basename stripped)),
     ("nazev_1", some (pyOrStr long_name (posix_basename stripped))),
     ("popis_1", description)]

/-- The form fields of `mkdrop`'s open-permissions call. -/
def zmpr2_sent (base created : String) : List (String × String) :=
  [("op", "zmpr2"), ("furl", ensure_slash base), ("akce", "zxpro"), ("ch", created)]

/-- The form fields of `mkdrop`'s add-permission call. -/
def zmpr_sent (base created new_mode : String) : List (String × String) :=
  [("op", "zmpr"), ("pridat", new_mode), ("furl", ensure_slash base), ("ch", created)]

/-- The form fields of `mkdrop`'s set-attributes call. -/
def zmat_sent (base created : String) : List (String × String) :=
  [("op", "zmat"),
   ("d_atributy_0_pridatprijm", "pridatprijm"),
   ("d_atributy_0_pridatuco", "pridatuco"),
   ("d_atributy_0_vsechnacteni", "vsechnacteni"),
   ("churl_0", created), ("furl", ensure_slash base)]

/-- A POST outcome that `_rfmgr` accepts, decoding to `data`: HTTP 200, a
body that passes both prefix checks, and no error field. -/
def PostOutcome.succeedsWith (o : PostOutcome) (data : RfmgrData) : Prop :=
  ∃ text, o = .ok 200 text (some data) ∧
    pyStartsWith text NONPERSONAL_MSG = false ∧
    pyStartsWith text "\x7b" = true ∧
    data.chyba = none

/-- A POST outcome that `_rfmgr` turns into an API error carrying the
server's literal error string `ch`. -/
def PostOutcome.failsWith (o : PostOutcome) (ch : String) : Prop :=
  ∃ text data, o = .ok 200 text (some data) ∧
    pyStartsWith text NONPERSONAL_MSG = false ∧
    pyStartsWith text "\x7b" = true ∧
    data.chyba = some ch

/-- Did the computation raise a `FileDoesNotExistException`? -/
def raises_file_not_found {α : Type} (m : ISM α) : Bool :=
  match ISM.res m with
  | .error e => PyExc.isFileDoesNotExist e
  | .ok _ => false

/-! ## Concrete fixtures (used by witnesses and counterexamples) -/

/-- An embedded object whose filename differs from its node's shortname. -/
def objW : RawObj :=
  ⟨"/dir/local.txt", "local.txt", some "text/plain", 123, "2020-01-01T00:00:00", 999⟩

/-- A file node carrying `objW`; its own `zkratka` is `"shortid"`. -/
def childNodeW : RawNodeCore :=
  ⟨"/dir/nodepath", "shortid", none, none, none, some [objW], 0, 1, "2020-02-02T00:00:00"⟩

def dirNodeW : RawNode :=
  ⟨⟨"/dir", "dir", none, none, none, none, 1, 7, "2020-02-02T00:00:00"⟩, some [childNodeW]⟩

def infoDirW : InfoData := ⟨none, some [dirNodeW]⟩

def infoFileW : InfoData := ⟨none, some [⟨childNodeW, none⟩]⟩

/-- The parsed entry of `childNodeW` (shortname taken from the object). -/
def metaFileW : MetaCore :=
  { ispath := "/dir/local.txt", shortname := "local.txt",
    name := some "local.txt", annotation := none, read := false,
    mime := some "text/plain", author := 123,
    change_time := ⟨"2020-01-01T00:00:00", true⟩, objid := some 999 }

/-- The parsed core of `dirNodeW`. -/
def dirCoreW : MetaCore :=
  { ispath := "/dir", shortname := "dir", name := none, annotation := none,
    read := false, mime := none, author := 7,
    change_time := ⟨"2020-02-02T00:00:00", true⟩, objid := none }

/-- The parsed root of `infoDirW` with its one expanded entry. -/
def lsW : Meta := .dir dirCoreW [.file metaFileW]

/-- A plain node: no embedded object, no children. -/
def rawPlainW : RawNodeCore :=
  ⟨"/p", "p", none, none, some 1, none, 0, 42, "2021-05-05T00:00:00"⟩

/-- Transport-argument fixture: a folder URL missing its slash plus an
absent field. -/
def argsW : List (String × Option String) := [("furl", some "/a"), ("x", none)]

/-- Witness oracle: a listing of `/dir` containing `local.txt` (bytes
`[1, 2]`), a local file with the same bytes, and POSTs that succeed. -/
def envW : Env where
  get url :=
    if url = fmgr_api_url "/dir" then .ok { text := "x", loads := some infoDirW }
    else if url = "https://is.muni.cz/auth/dir/local.txt" then
      .ok { text := "", content := [1, 2], encoding := some "utf-8",
            contentType := some "text/plain" }
    else if url = fmgr_api_url "/dir/local.txt" then
      .ok { text := "y", loads := some infoFileW }
    else .netErr "no route"
  post _ _ := .ok 200 "\x7b\x7d" (some {})
  localFile _ := [1, 2]

/-- Same oracle with a local file whose bytes differ from the remote. -/
def envW3 : Env := { envW with localFile := fun _ => [1, 2, 3] }

/-- Oracle whose every POST decodes to the given error string. -/
def envPostErr (ch : String) : Env where
  get _ := .netErr "unused"
  post _ _ := .ok 200 "\x7b\x7d" (some { chyba := some ch })
  localFile _ := []

/-- Oracle whose every POST succeeds with an empty decoded body. -/
def envPostOk : Env where
  get _ := .netErr "unused"
  post _ _ := .ok 200 "\x7b\x7d" (some {})
  localFile _ := []

/-- Oracle answering every metadata query with the given error string. -/
def envInfoErr (msg : String) : Env where
  get _ := .ok { text := "t", loads := some ⟨some msg, none⟩ }
  post _ _ := .netErr "unused"
  localFile _ := []

/-- An error message in which the "not found" sentinel appears strictly. -/
def notFoundPlus : String := NOT_FOUND_MSG ++ "!"

/-- A directory node at `/d` (two children, none expanded). -/
def infoDirOnlyW : InfoData :=
  ⟨none, some [⟨⟨"/d", "d", none, none, none, none, 2, 1, "2020"⟩, none⟩]⟩

/-- Oracle for `get_file` on a path that resolves to a directory. -/
def envDirW : Env where
  get url :=
    if url = "https://is.muni.cz/auth/d" then .ok { text := "", content := [9] }
    else if url = fmgr_api_url "/d" then .ok { text := "", loads := some infoDirOnlyW }
    else .netErr "?"
  post _ _ := .netErr "unused"
  localFile _ := []

/-- The `w`-permission dict of the drop-folder fixture: one mode token. -/
def pravaW : JVal := .jobj [("156a", .jnull)]

/-- Decoded body of the open-permissions call for `/el/fi/drop/`. -/
def dropRespW : RfmgrData :=
  { chyba := none,
    rest := [("pridatRadky", .jobj [("/el/fi/drop/", .jobj
      [("js", .jobj [("prava", .jobj [("w", pravaW)])])])])] }

/-- Oracle for a fresh drop folder: the create succeeds, the
open-permissions call returns `dropRespW`, the rest succeed. -/
def envDropW : Env where
  get _ := .netErr "unused"
  post args _ :=
    if args.lookup "op" = some "zmpr2" then .ok 200 "\x7b\x7d" (some dropRespW)
    else .ok 200 "\x7b\x7d" (some {})
  localFile _ := []

/-! ## Computation rules of the effect monad -/

@[simp]
theorem ISM.bind_eq {α β : Type} (x : ISM α) (f : α → ISM β) :
    x >>= f = ISM.bind' x f := rfl

@[simp]
theorem ISM.bind'_ok {α β : Type} (a : α) (t : List WireCall) (f : α → ISM β) :
    ISM.bind' (Except.ok a, t) f = (ISM.res (f a), t ++ ISM.trace (f a)) := rfl

@[simp]
theorem ISM.bind'_error {α β : Type} (e : PyExc) (t : List WireCall) (f : α → ISM β) :
    ISM.bind' (Except.error e, t) f = (Except.error e, t) := rfl

@[simp]
theorem ISM.pure_eq {α : Type} (a : α) :
    (pure a : ISM α) = (Except.ok a, []) := rfl

@[simp]
theorem ISM.throw_eq {α : Type} (e : PyExc) :
    (throw e : ISM α) = (Except.error e, ([] : List WireCall)) := rfl

@[simp]
theorem pyTry_ok {α : Type} (a : α) (t : List WireCall) (h : PyExc → ISM α) :
    pyTry (Except.ok a, t) h = (Except.ok a, t) := rfl

@[simp]
theorem pyTry_error {α : Type} (e : PyExc) (t : List WireCall) (h : PyExc → ISM α) :
    pyTry (Except.error e, t) h = (ISM.res (h e), t ++ ISM.trace (h e)) := rfl

@[simp]
theorem liftExc_ok {α : Type} (a : α) :
    liftExc (Except.ok a) = ((Except.ok a : Except PyExc α), ([] : List WireCall)) := rfl

@[simp]
theorem liftExc_error {α : Type} (e : PyExc) :
    liftExc (Except.error e : Except PyExc α) = (Except.error e, ([] : List WireCall)) := rfl

@[simp]
theorem ISM.res_mk {α : Type} (r : Except PyExc α) (t : List WireCall) :
    ISM.res (r, t) = r := rfl

@[simp]
theorem ISM.trace_mk {α : Type} (r : Except PyExc α) (t : List WireCall) :
    ISM.trace (r, t) = t := rfl

/-- A computation equals the pair of its projections. -/
theorem ISM.eta {α : Type} (m : ISM α) : m = (ISM.res m, ISM.trace m) := rfl

/-! ## Trace-shape lemmas for the read operations -/

/-- `_get_info` performs exactly one GET, whatever the outcome. -/
theorem get_info_trace (env : Env) (p : PathOrMeta) :
    ISM.trace (get_info env p) = [.get (fmgr_api_url (resolve_path p))] := by
  unfold get_info conn_get record
  cases hg : env.get (fmgr_api_url (resolve_path p)) with
  | netErr msg => simp [hg]
  | ok r =>
    cases hl : r.loads with
    | none => simp [hg, hl]
    | some data =>
      cases hc : data.chyba with
      | none => simp [hg, hl, hc]
      | some emsg =>
        by_cases he : emsg = NOT_FOUND_MSG <;> simp [hg, hl, hc, he]

/-- `file_info` performs exactly one GET, whatever the outcome. -/
theorem file_info_trace (env : Env) (p : PathOrMeta) :
    ISM.trace (file_info env p) = [.get (fmgr_api_url (resolve_path p))] := by
  unfold file_info
  rw [ISM.eta (get_info env p), get_info_trace]
  cases hr : ISM.res (get_info env p) with
  | error e => simp
  | ok data =>
    cases hu : data.uzel with
    | none => simp [hu]
    | some l =>
      cases l with
      | nil => simp [hu]
      | cons node rest =>
        cases hm : meta_from_raw node.toRawNodeCore <;> simp [hu, hm]

/-- `list_directory` performs exactly one GET, whatever the outcome. -/
theorem list_directory_trace (env : Env) (p : PathOrMeta) :
    ISM.trace (list_directory env p) = [.get (fmgr_api_url (resolve_path p))] := by
  unfold list_directory
  rw [ISM.eta (get_info env p), get_info_trace]
  cases hr : ISM.res (get_info env p) with
  | error e => simp
  | ok data =>
    cases hu : data.uzel with
    | none => simp [hu]
    | some l =>
      cases l with
      | nil => simp [hu]
      | cons node rest =>
        cases hi : FileMeta_init node.toRawNodeCore with
        | error e => simp [hu, hi]
        | ok core =>
          cases hp : node.poduzly with
          | none => simp [hu, hi, hp]
          | some children =>
            cases hc : parse_children children <;> simp [hu, hi, hp, hc]

/-! ## Result-shape lemmas for the read operations -/

theorem get_info_ok (env : Env) (p : PathOrMeta) (r : HttpGetResp) (data : InfoData)
    (hg : env.get (fmgr_api_url (resolve_path p)) = .ok r)
    (hl : r.loads = some data) (hc : data.chyba = none) :
    get_info env p = (.ok data, [.get (fmgr_api_url (resolve_path p))]) := by
  unfold get_info conn_get record
  simp [hg, hl, hc]

theorem get_info_chyba (env : Env) (p : PathOrMeta) (r : HttpGetResp)
    (data : InfoData) (emsg : String)
    (hg : env.get (fmgr_api_url (resolve_path p)) = .ok r)
    (hl : r.loads = some data) (hc : data.chyba = some emsg) :
    get_info env p
      = (.error (if emsg = NOT_FOUND_MSG then .fileDoesNotExist (resolve_path p)
                 else .fileAPI ("File manager API error: " ++ emsg) none),
         [.get (fmgr_api_url (resolve_path p))]) := by
  unfold get_info conn_get record
  by_cases he : emsg = NOT_FOUND_MSG <;> simp [hg, hl, hc, he]

theorem list_directory_ok (env : Env) (p : PathOrMeta) (r : HttpGetResp)
    (data : InfoData) (node : RawNode) (rest : List RawNode) (core : MetaCore)
    (children : List RawNodeCore) (entries : List Meta)
    (hg : env.get (fmgr_api_url (resolve_path p)) = .ok r)
    (hl : r.loads = some data) (hc : data.chyba = none)
    (hu : data.uzel = some (node :: rest))
    (hi : FileMeta_init node.toRawNodeCore = .ok core)
    (hp : node.poduzly = some children)
    (hpc : parse_children children = .ok entries) :
    list_directory env p = (.ok (.dir core entries), [.get (fmgr_api_url (resolve_path p))]) := by
  unfold list_directory
  rw [get_info_ok env p r data hg hl hc]
  simp [hu, hi, hp, hpc]

theorem file_info_ok (env : Env) (p : PathOrMeta) (r : HttpGetResp)
    (data : InfoData) (node : RawNode) (rest : List RawNode) (m : Meta)
    (hg : env.get (fmgr_api_url (resolve_path p)) = .ok r)
    (hl : r.loads = some data) (hc : data.chyba = none)
    (hu : data.uzel = some (node :: rest))
    (hm : meta_from_raw node.toRawNodeCore = .ok m) :
    file_info env p = (.ok m, [.get (fmgr_api_url (resolve_path p))]) := by
  unfold file_info
  rw [get_info_ok env p r data hg hl hc]
  simp [hu, hm]

/-! ## Result-shape lemmas for the transport -/

theorem rfmgr_succeeds (env : Env) (args args' : List (String × Option String))
    (files : List FilePart) (data : RfmgrData)
    (hn : norm_furl args = .ok args')
    (hp : (env.post (drop_none_args args') files).succeedsWith data) :
    rfmgr env args files = (.ok data, [.post (drop_none_args args') files]) := by
  obtain ⟨text, hpost, h1, h2, hc⟩ := hp
  unfold rfmgr record
  simp [hn, hpost, h1, h2, hc]

theorem rfmgr_fails (env : Env) (args args' : List (String × Option String))
    (files : List FilePart) (ch : String)
    (hn : norm_furl args = .ok args')
    (hp : (env.post (drop_none_args args') files).failsWith ch) :
    rfmgr env args files
      = (.error (.fileAPI ("rfmgr.pl API error: " ++ ch) (some ch)),
         [.post (drop_none_args args') files]) := by
  obtain ⟨text, data, hpost, h1, h2, hc⟩ := hp
  unfold rfmgr record
  simp [hn, hpost, h1, h2, hc]

/-! ## Folder-URL normalization on the concrete argument shapes -/

theorem norm_furl_upload (furl bn : String) (ln ds : Option String) (kz : String) :
    norm_furl [("op", some "vlso"), ("furl", some furl),
               ("jmeno_souboru_0", some bn), ("nazev_0", ln), ("popis_0", ds),
               ("kolize", some kz)]
      = .ok [("op", some "vlso"), ("furl", some (ensure_slash furl)),
             ("jmeno_souboru_0", some bn), ("nazev_0", ln), ("popis_0", ds),
             ("kolize", some kz)] := by
  unfold norm_furl ensure_slash
  by_cases h : pyEndsWith furl "/" <;> simp [List.lookup, h]

theorem norm_furl_mkdir (parent dn nz : String) (ds : Option String) :
    norm_furl [("op", some "vlsl"), ("furl", some parent),
               ("zkratka_1", some dn), ("nazev_1", some nz), ("popis_1", ds)]
      = .ok [("op", some "vlsl"), ("furl", some (ensure_slash parent)),
             ("zkratka_1", some dn), ("nazev_1", some nz), ("popis_1", ds)] := by
  unfold norm_furl ensure_slash
  by_cases h : pyEndsWith parent "/" <;> simp [List.lookup, h]

theorem norm_furl_zmpr2 (base created : String) :
    norm_furl [("op", some "zmpr2"), ("furl", some base),
               ("akce", some "zxpro"), ("ch", some created)]
      = .ok [("op", some "zmpr2"), ("furl", some (ensure_slash base)),
             ("akce", some "zxpro"), ("ch", some created)] := by
  unfold norm_furl ensure_slash
  by_cases h : pyEndsWith base "/" <;> simp [List.lookup, h]

theorem norm_furl_zmpr (base created nm : String) :
    norm_furl [("op", some "zmpr"), ("pridat", some nm),
               ("furl", some base), ("ch", some created)]
      = .ok [("op", some "zmpr"), ("pridat", some nm),
             ("furl", some (ensure_slash base)), ("ch", some created)] := by
  unfold norm_furl ensure_slash
  by_cases h : pyEndsWith base "/" <;> simp [List.lookup, h]

theorem norm_furl_zmat (base created : String) :
    norm_furl [("op", some "zmat"),
               ("d_atributy_0_pridatprijm", some "pridatprijm"),
               ("d_atributy_0_pridatuco", some "pridatuco"),
               ("d_atributy_0_vsechnacteni", some "vsechnacteni"),
               ("churl_0", some created), ("furl", some base)]
      = .ok [("op", some "zmat"),
             ("d_atributy_0_pridatprijm", some "pridatprijm"),
             ("d_atributy_0_pridatuco", some "pridatuco"),
             ("d_atributy_0_vsechnacteni", some "vsechnacteni"),
             ("churl_0", some created), ("furl", some (ensure_slash base))] := by
  unfold norm_furl ensure_slash
  by_cases h : pyEndsWith base "/" <;> simp [List.lookup, h]

/-! ## Claims -/

/-- C4: parsing a raw node branches solely on the child-count field —
zero children yields a `FileMeta`, nonzero a `DirMeta`; and a node with
zero children and no embedded object yields a `FileMeta` with `mime` and
`objid` absent whose author and change time come from the node's own
`zmenil_uco`/`zmeneno` fields. -/
theorem C4_parse_node_branches (raw : RawNodeCore) :
    (∀ core : MetaCore, FileMeta_init raw = .ok core →
      meta_from_raw raw
        = .ok (if raw.pocet_poduzlu = 0 then Meta.file core else Meta.dir core [])) ∧
    (raw.objekty = none → raw.pocet_poduzlu = 0 →
      meta_from_raw raw = .ok (Meta.file
        { ispath := raw.cesta, shortname := raw.zkratka, name := raw.nazev,
          annotation := raw.popis, read := (raw.mam_precteno.getD 0) ≠ 0,
          mime := none, author := raw.zmenil_uco,
          change_time := localize_timestamp (isoparse raw.zmeneno),
          objid := none })) := by
  constructor
  · intro core hc
    unfold meta_from_raw
    by_cases h : raw.pocet_poduzlu = 0 <;> simp [h, hc, Except.map]
  · intro ho hz
    unfold meta_from_raw FileMeta_init
    simp [hz, ho, Except.map]

/-- Witness for C4 at concrete nodes: a plain file node and a directory
node. -/
theorem C4_witness :
    meta_from_raw rawPlainW = .ok (Meta.file
      { ispath := "/p", shortname := "p", name := none, annotation := none,
        read := true, mime := none, author := 42,
        change_time := ⟨"2021-05-05T00:00:00", true⟩, objid := none }) ∧
    meta_from_raw dirNodeW.toRawNodeCore = .ok (Meta.dir dirCoreW []) := by
  constructor
  · exact (C4_parse_node_branches rawPlainW).2 rfl rfl
  · exact (C4_parse_node_branches dirNodeW.toRawNodeCore).1 dirCoreW rfl

/-- C10: when a raw node carries an embedded object, the parsed metadata
takes its `shortname` (and path) from the object's filename and path, not
the node's own `zkratka`/`cesta`; consequently `DirMeta.get`-style lookup
matches the object filename. -/
theorem C10_shortname_from_object (raw : RawNodeCore) (obj : RawObj)
    (rest : List RawObj) (h : raw.objekty = some (obj :: rest)) :
    (∀ core : MetaCore, FileMeta_init raw = .ok core →
       MetaCore.shortname core = obj.jmeno_souboru ∧
       MetaCore.ispath core = obj.cesta) ∧
    (∀ m : Meta, meta_from_raw raw = .ok m →
       ∀ fn : String,
         dir_get [m] fn = if fn = obj.jmeno_souboru then some m else none) := by
  have hinit : FileMeta_init raw = .ok
      { ispath := obj.cesta
        shortname := obj.jmeno_souboru
        name := some (match raw.nazev with
                      | some n => n
                      | none => obj.jmeno_souboru)
        annotation := raw.popis
        read := (raw.mam_precteno.getD 0) ≠ 0
        mime := obj.mime_type
        author := obj.vlozil_uco
        change_time := localize_timestamp (isoparse obj.vlozeno)
        objid := some obj.objekt_id } := by
    unfold FileMeta_init
    rw [h]
  constructor
  · intro core hc
    rw [hinit] at hc
    cases hc
    exact ⟨rfl, rfl⟩
  · intro m hm fn
    have hshort : MetaCore.shortname (Meta.core m) = obj.jmeno_souboru := by
      unfold meta_from_raw at hm
      rw [hinit] at hm
      by_cases hz : raw.pocet_poduzlu = 0 <;> simp [hz, Except.map] at hm <;>
        rw [← hm] <;> rfl
    unfold dir_get
    simp only [List.find?]
    by_cases he : fn = obj.jmeno_souboru
    · subst he
      rw [hshort]
      simp
    · rw [hshort]
      have : (obj.jmeno_souboru == fn) = false := by
        simp [beq_eq_false_iff_ne]
        exact fun hx => he hx.symm
      rw [this]
      simp [he]

/-- Witness for C10 at the fixture node: the shortname is the object's
filename, and lookup by the node's own `zkratka` misses. -/
theorem C10_witness :
    (MetaCore.shortname metaFileW = "local.txt" ∧
     MetaCore.ispath metaFileW = "/dir/local.txt") ∧
    dir_get [Meta.file metaFileW] "local.txt" = some (Meta.file metaFileW) ∧
    dir_get [Meta.file metaFileW] "shortid" = none := by
  have h := C10_shortname_from_object childNodeW objW [] rfl
  refine ⟨h.1 metaFileW rfl, ?_, ?_⟩
  · rw [h.2 (Meta.file metaFileW) rfl "local.txt"]
    simp [objW]
  · rw [h.2 (Meta.file metaFileW) rfl "shortid"]
    simp [objW]

/-- C6 counterexample: the claim says `FileNotFound` is raised whenever
the "not found" sentinel *appears in* the decoded error message, but the
code compares for *equality*: on a message that strictly contains the
sentinel, a plain `FileAPIException` is raised instead. -/
theorem C6_counterexample :
    pyIn NOT_FOUND_MSG notFoundPlus = true ∧
    raises_file_not_found
      (list_directory (envInfoErr notFoundPlus) (.path "/p")) = false ∧
    raises_file_not_found
      (file_info (envInfoErr notFoundPlus) (.path "/p")) = false ∧
    ISM.res (list_directory (envInfoErr notFoundPlus) (.path "/p"))
      = .error (.fileAPI ("File manager API error: " ++ notFoundPlus) none) := by
  exact ⟨rfl, rfl, rfl, rfl⟩

/-- C6 (amended): a metadata query of `list_directory` or `file_info`
whose decoded response carries an error message raises
`FileDoesNotExistException` exactly when the message *equals* the server's
"not found" sentinel, and a plain `FileAPIException` otherwise. -/
theorem C6_not_found_classification (env : Env) (p : PathOrMeta)
    (r : HttpGetResp) (data : InfoData) (emsg : String)
    (hg : env.get (fmgr_api_url (resolve_path p)) = .ok r)
    (hl : r.loads = some data) (hc : data.chyba = some emsg) :
    (emsg = NOT_FOUND_MSG →
      ISM.res (list_directory env p) = .error (.fileDoesNotExist (resolve_path p)) ∧
      ISM.res (file_info env p) = .error (.fileDoesNotExist (resolve_path p))) ∧
    (emsg ≠ NOT_FOUND_MSG →
      ISM.res (list_directory env p)
        = .error (.fileAPI ("File manager API error: " ++ emsg) none) ∧
      ISM.res (file_info env p)
        = .error (.fileAPI ("File manager API error: " ++ emsg) none)) := by
  have hgi := get_info_chyba env p r data emsg hg hl hc
  constructor
  · intro he
    constructor
    · unfold list_directory
      rw [hgi]
      simp [he]
    · unfold file_info
      rw [hgi]
      simp [he]
  · intro he
    constructor
    · unfold list_directory
      rw [hgi]
      simp [he]
    · unfold file_info
      rw [hgi]
      simp [he]

/-- Witness for the amended C6: the exact sentinel yields
`FileDoesNotExistException`. -/
theorem C6_witness :
    ISM.res (list_directory (envInfoErr NOT_FOUND_MSG) (.path "/p"))
      = .error (.fileDoesNotExist "/p") ∧
    ISM.res (file_info (envInfoErr NOT_FOUND_MSG) (.path "/p"))
      = .error (.fileDoesNotExist "/p") :=
  (C6_not_found_classification (envInfoErr NOT_FOUND_MSG) (.path "/p")
    { text := "t", loads := some ⟨some NOT_FOUND_MSG, none⟩ }
    ⟨some NOT_FOUND_MSG, none⟩ NOT_FOUND_MSG rfl rfl rfl).1 rfl

/-! ## Auxiliary lookup lemmas for the transport claim -/

theorem pyLookup_cons {b : Type} (k k' : String) (v : b) (t : List (String × b)) :
    List.lookup k ((k', v) :: t) = if k = k' then some v else List.lookup k t := by
  by_cases h : k = k'
  · subst h
    simp [List.lookup]
  · have hb : (k == k') = false := beq_eq_false_iff_ne.mpr h
    simp [List.lookup, hb, h]

theorem drop_none_cons_none (k' : String) (t : List (String × Option String)) :
    drop_none_args ((k', none) :: t) = drop_none_args t := rfl

theorem drop_none_cons_some (k' s : String) (t : List (String × Option String)) :
    drop_none_args ((k', some s) :: t) = (k', s) :: drop_none_args t := rfl

theorem lookup_drop_none_of_none (l : List (String × Option String)) (k : String)
    (h : l.lookup k = none) : (drop_none_args l).lookup k = none := by
  induction l with
  | nil => rfl
  | cons kv t ih =>
    obtain ⟨k', v⟩ := kv
    rw [pyLookup_cons] at h
    by_cases hk : k = k'
    · simp [hk] at h
    · rw [if_neg hk] at h
      cases v with
      | none => rw [drop_none_cons_none]; exact ih h
      | some s => rw [drop_none_cons_some, pyLookup_cons, if_neg hk]; exact ih h

theorem lookup_drop_none_of_some (l : List (String × Option String)) (k : String)
    (f : String) (h : l.lookup k = some (some f)) :
    (drop_none_args l).lookup k = some f := by
  induction l with
  | nil => simp [List.lookup] at h
  | cons kv t ih =>
    obtain ⟨k', v⟩ := kv
    rw [pyLookup_cons] at h
    by_cases hk : k = k'
    · rw [if_pos hk] at h
      have hv : v = some f := by
        injection h
      subst hv
      rw [drop_none_cons_some, pyLookup_cons, if_pos hk]
    · rw [if_neg hk] at h
      cases v with
      | none => rw [drop_none_cons_none]; exact ih h
      | some s => rw [drop_none_cons_some, pyLookup_cons, if_neg hk]; exact ih h

theorem lookup_drop_none_of_update (l : List (String × Option String)) (f g : String)
    (h : l.lookup "furl" = some (some f)) :
    (drop_none_args (l.map (fun kv =>
        if kv.1 = "furl" then (kv.1, some g) else kv))).lookup "furl" = some g := by
  induction l with
  | nil => simp [List.lookup] at h
  | cons kv t ih =>
    obtain ⟨k', v⟩ := kv
    rw [pyLookup_cons] at h
    by_cases hk : k' = "furl"
    · subst hk
      simp only [List.map_cons, eq_self_iff_true, if_true]
      rw [drop_none_cons_some, pyLookup_cons, if_pos rfl]
    · have hk' : ("furl" : String) ≠ k' := fun hx => hk hx.symm
      rw [if_neg hk'] at h
      simp only [List.map_cons]
      rw [if_neg hk]
      cases v with
      | none => rw [drop_none_cons_none]; exact ih h
      | some s => rw [drop_none_cons_some, pyLookup_cons, if_neg hk']; exact ih h

theorem mem_drop_none_args (l : List (String × Option String)) (k v : String) :
    (k, v) ∈ drop_none_args l ↔ (k, some v) ∈ l := by
  unfold drop_none_args
  rw [List.mem_filterMap]
  constructor
  · rintro ⟨⟨k', ov⟩, hmem, hf⟩
    simp only [Option.map_eq_some'] at hf
    obtain ⟨w, hw, hkv⟩ := hf
    cases hkv
    rw [hw] at hmem
    exact hmem
  · intro hmem
    exact ⟨(k, some v), hmem, rfl⟩

/-- A string extended by `"/"` ends with `"/"`. -/
theorem pyEndsWith_append_slash (s : String) : pyEndsWith (s ++ "/") "/" = true := by
  unfold pyEndsWith
  rw [String.data_append]
  simp [List.isSuffixOf, List.isPrefixOf]

/-! ## C7 -/

/-- C7: `_rfmgr` sends exactly one POST whose folder-URL field ends with
a separator and whose fields are exactly the non-absent ones, and
classifies the response: non-success status, the non-personal-account
sentinel prefix, a body not opening a JSON object, or a decoded error
field each raise the corresponding error, and otherwise the decoded body
is returned. -/
theorem C7_rfmgr_classification (env : Env)
    (args args' : List (String × Option String)) (files : List FilePart)
    (hn : norm_furl args = .ok args') :
    ISM.trace (rfmgr env args files) = [.post (drop_none_args args') files] ∧
    (∀ f, (drop_none_args args').lookup "furl" = some f → pyEndsWith f "/" = true) ∧
    (∀ k v, (k, v) ∈ drop_none_args args' ↔ (k, some v) ∈ args') ∧
    (∀ status text loads,
      env.post (drop_none_args args') files = .ok status text loads →
      (status ≠ 200 →
        ISM.res (rfmgr env args files)
          = .error (.fileAPI ("rfmgr.pl returned HTTP code " ++ toString status) none)) ∧
      (status = 200 → pyStartsWith text NONPERSONAL_MSG = true →
        ISM.res (rfmgr env args files)
          = .error (.fileAPI
              "rfmgr.pl API error: not permitted, see IS non-personal account settings"
              none)) ∧
      (status = 200 → pyStartsWith text NONPERSONAL_MSG = false →
       pyStartsWith text "\x7b" = false →
        ISM.res (rfmgr env args files)
          = .error (.fileAPI
              "rfmgr.pl API error: unexpected resultformat, probably bad request"
              none)) ∧
      (∀ data ch, status = 200 → pyStartsWith text NONPERSONAL_MSG = false →
       pyStartsWith text "\x7b" = true → loads = some data → data.chyba = some ch →
        ISM.res (rfmgr env args files)
          = .error (.fileAPI ("rfmgr.pl API error: " ++ ch) (some ch))) ∧
      (∀ data, status = 200 → pyStartsWith text NONPERSONAL_MSG = false →
       pyStartsWith text "\x7b" = true → loads = some data → data.chyba = none →
        ISM.res (rfmgr env args files) = .ok data)) := by
  refine ⟨?_, ?_, ?_, ?_⟩
  · unfold rfmgr record
    cases hpo : env.post (drop_none_args args') files with
    | netErr msg => simp [hn, hpo]
    | ok status text loads =>
      by_cases hs : status = 200
      · by_cases h1 : pyStartsWith text NONPERSONAL_MSG
        · simp [hn, hpo, hs, h1]
        · by_cases h2 : pyStartsWith text "\x7b"
          · cases loads with
            | none => simp [hn, hpo, hs, h1, h2]
            | some data =>
              cases hc : data.chyba <;> simp [hn, hpo, hs, h1, h2, hc]
          · simp [hn, hpo, hs, h1, h2]
      · simp [hn, hpo, hs]
  · intro f hf
    unfold norm_furl at hn
    cases hl : args.lookup "furl" with
    | none =>
      rw [hl] at hn
      cases hn
      rw [lookup_drop_none_of_none args "furl" hl] at hf
      cases hf
    | some ov =>
      cases ov with
      | none => rw [hl] at hn; cases hn
      | some f0 =>
        rw [hl] at hn
        by_cases he : pyEndsWith f0 "/"
        · simp only [he, if_true, Except.ok.injEq] at hn
          subst hn
          have hx := (lookup_drop_none_of_some args "furl" f0 hl).symm.trans hf
          injection hx with hx
          rw [← hx]
          exact he
        · simp only [he, if_false, Bool.false_eq_true, Except.ok.injEq] at hn
          subst hn
          have hx := (lookup_drop_none_of_update args f0 (f0 ++ "/") hl).symm.trans hf
          injection hx with hx
          rw [← hx]
          exact pyEndsWith_append_slash f0
  · intro k v
    exact mem_drop_none_args args' k v
  · intro status text loads hpo
    refine ⟨?_, ?_, ?_, ?_, ?_⟩
    · intro hs
      unfold rfmgr record
      simp [hn, hpo, hs]
    · intro hs h1
      subst hs
      unfold rfmgr record
      simp [hn, hpo, h1]
    · intro hs h1 h2
      subst hs
      unfold rfmgr record
      simp [hn, hpo, h1, h2]
    · intro data ch hs h1 h2 hl hc
      subst hs
      subst hl
      unfold rfmgr record
      simp [hn, hpo, h1, h2, hc]
    · intro data hs h1 h2 hl hc
      subst hs
      subst hl
      unfold rfmgr record
      simp [hn, hpo, h1, h2, hc]

/-- Witness for C7: a folder URL gains its slash, the absent field is
dropped, and a decoded error field becomes an API error carrying the
server's literal string. -/
theorem C7_witness :
    ISM.trace (rfmgr (envPostErr "boom") argsW []) = [.post [("furl", "/a/")] []] ∧
    ISM.res (rfmgr (envPostErr "boom") argsW [])
      = .error (.fileAPI "rfmgr.pl API error: boom" (some "boom")) := by
  have h := C7_rfmgr_classification (envPostErr "boom") argsW
    [("furl", some "/a/"), ("x", none)] [] rfl
  refine ⟨h.1, ?_⟩
  exact (h.2.2.2 200 "\x7b\x7d" (some { chyba := some "boom" }) rfl).2.2.2.1
    { chyba := some "boom" } "boom" rfl rfl rfl rfl rfl

/-! ## More trace helpers (shared by the remaining claims) -/

/-- `_rfmgr` performs exactly one POST, whatever the outcome. -/
theorem rfmgr_trace (env : Env) (args args' : List (String × Option String))
    (files : List FilePart) (hn : norm_furl args = .ok args') :
    ISM.trace (rfmgr env args files) = [.post (drop_none_args args') files] := by
  unfold rfmgr record
  cases hpo : env.post (drop_none_args args') files with
  | netErr msg => simp [hn, hpo]
  | ok status text loads =>
    by_cases hs : status = 200
    · by_cases h1 : pyStartsWith text NONPERSONAL_MSG
      · simp [hn, hpo, hs, h1]
      · by_cases h2 : pyStartsWith text "\x7b"
        · cases loads with
          | none => simp [hn, hpo, hs, h1, h2]
          | some data =>
            cases hc : data.chyba <;> simp [hn, hpo, hs, h1, h2, hc]
        · simp [hn, hpo, hs, h1, h2]
    · simp [hn, hpo, hs]

theorem postArgs_append (s t : List WireCall) :
    postArgs (s ++ t) = postArgs s ++ postArgs t := by
  unfold postArgs
  exact List.filterMap_append s t _

theorem upload_calls_append (s t : List WireCall) :
    upload_calls (s ++ t) = upload_calls s ++ upload_calls t := by
  unfold upload_calls
  rw [postArgs_append, List.filter_append]

/-- A GET leaves no POST in the trace. -/
theorem postArgs_get (u : String) : postArgs [.get u] = [] := rfl

/-- `get_file` performs no POSTs, whatever the outcome. -/
theorem get_file_no_posts (env : Env) (p : PathOrMeta) :
    postArgs (ISM.trace (get_file env p)) = [] := by
  simp only [get_file, conn_get, record]
  cases hg : env.get ("https://is.muni.cz/auth" ++ resolve_path p) with
  | netErr msg => simp [hg, postArgs]
  | ok r =>
    rw [ISM.eta (file_info env (.path (resolve_path p))), file_info_trace]
    cases hr : ISM.res (file_info env (.path (resolve_path p))) with
    | error e => simp [hg, postArgs, List.filterMap]
    | ok m =>
      by_cases hd : Meta.isDir m <;>
        simp [hg, hd, postArgs, List.filterMap]

/-- The wire step `upload_post` with a convertible policy: its one POST
carries exactly the normalized upload fields. -/
theorem upload_post_run (env : Env) (fp furl bn : String)
    (ln ds : Option String) (oc : OnConflict) (code : String)
    (hoc : oc.to_is = .ok code) :
    ISM.trace (upload_post env fp furl bn ln ds oc)
      = [.post (upload_sent furl bn ln ds code)
           [⟨"FILE_0", bn, env.localFile fp⟩]] := by
  unfold upload_post
  rw [hoc]
  simp only [liftExc_ok, ISM.bind_eq, ISM.bind'_ok, List.nil_append]
  have ht := rfmgr_trace env
    [("op", some "vlso"), ("furl", some furl), ("jmeno_souboru_0", some bn),
     ("nazev_0", ln), ("popis_0", ds), ("kolize", some code)]
    [("op", some "vlso"), ("furl", some (ensure_slash furl)),
     ("jmeno_souboru_0", some bn), ("nazev_0", ln), ("popis_0", ds),
     ("kolize", some code)]
    [⟨"FILE_0", bn, env.localFile fp⟩] (norm_furl_upload furl bn ln ds code)
  rw [ISM.eta (rfmgr env
    [("op", some "vlso"), ("furl", some furl), ("jmeno_souboru_0", some bn),
     ("nazev_0", ln), ("popis_0", ds), ("kolize", some code)]
    [⟨"FILE_0", bn, env.localFile fp⟩]), ht]
  cases ISM.res (rfmgr env
    [("op", some "vlso"), ("furl", some furl), ("jmeno_souboru_0", some bn),
     ("nazev_0", ln), ("popis_0", ds), ("kolize", some code)]
    [⟨"FILE_0", bn, env.localFile fp⟩]) <;> simp [upload_sent]

/-- The upload fields start with the operation code `vlso`. -/
theorem upload_sent_op (furl bn : String) (ln ds : Option String) (code : String) :
    (upload_sent furl bn ln ds code).lookup "op" = some "vlso" := by
  cases ln <;> cases ds <;> rfl

/-- The upload fields carry the given collision code. -/
theorem upload_sent_kolize (furl bn : String) (ln ds : Option String) (code : String) :
    (upload_sent furl bn ln ds code).lookup "kolize" = some code := by
  cases ln <;> cases ds <;> rfl

/-- The upload calls of a one-upload-POST trace. -/
theorem upload_calls_single (a : List (String × String)) (fs : List FilePart)
    (ha : a.lookup "op" = some "vlso") :
    upload_calls [.post a fs] = [a] := by
  unfold upload_calls postArgs
  simp [List.filterMap, List.filter, ha]

/-! ## C5 -/

/-- C5: `get_file` downloads the raw content first and queries the
metadata second; a directory answer raises `IsDirectoryException` even
though the download succeeded, and otherwise the bytes, charset, content
type and metadata are returned. -/
theorem C5_get_file_order_and_directory (env : Env) (path : String)
    (r : HttpGetResp)
    (hdl : env.get ("https://is.muni.cz/auth" ++ path) = .ok r) :
    ISM.trace (get_file env (.path path))
      = [.get ("https://is.muni.cz/auth" ++ path), .get (fmgr_api_url path)] ∧
    (∀ m : Meta, ISM.res (file_info env (.path path)) = .ok m →
      (Meta.isDir m = true →
        ISM.res (get_file env (.path path)) = .error (.isDirectory path)) ∧
      (Meta.isDir m = false →
        ISM.res (get_file env (.path path))
          = .ok { data := r.content, charset := r.encoding,
                  content_type := r.contentType.getD "text/plain",
                  meta := some m })) := by
  have hfi : file_info env (.path path)
      = (ISM.res (file_info env (.path path)), [.get (fmgr_api_url path)]) := by
    rw [ISM.eta (file_info env (.path path)), file_info_trace]
    rfl
  constructor
  · simp only [get_file, conn_get, record, resolve_path]
    rw [hdl, hfi]
    cases hr : ISM.res (file_info env (.path path)) with
    | error e => simp
    | ok m => by_cases hd : Meta.isDir m <;> simp [hd]
  · intro m hm
    have hfi2 : file_info env (.path path) = (.ok m, [.get (fmgr_api_url path)]) := by
      rw [hfi, hm]
    constructor
    · intro hd
      simp only [get_file, conn_get, record, resolve_path]
      rw [hdl, hfi2]
      simp [hd]
    · intro hd
      simp only [get_file, conn_get, record, resolve_path]
      rw [hdl, hfi2]
      simp [hd]

/-- Witness for C5: download of `/d` succeeds, the metadata says
directory, `IsDirectoryException` is raised, the download GET precedes
the metadata GET. -/
theorem C5_witness :
    ISM.trace (get_file envDirW (.path "/d"))
      = [.get "https://is.muni.cz/auth/d", .get (fmgr_api_url "/d")] ∧
    ISM.res (get_file envDirW (.path "/d")) = .error (.isDirectory "/d") := by
  have h := C5_get_file_order_and_directory envDirW "/d"
    { text := "", content := [9] } rfl
  exact ⟨h.1, (h.2 (Meta.dir
    { ispath := "/d", shortname := "d", name := none, annotation := none,
      read := false, mime := none, author := 1,
      change_time := ⟨"2020", true⟩, objid := none } []) rfl).1 rfl⟩

/-! ## C3 -/

/-- C3: `mkdir` returns true when the create-folder wire call succeeds;
an API error whose literal message contains either "already exists"
sentinel yields false without raising; any other API error propagates. -/
theorem C3_mkdir_idempotence (env : Env) (is_path stripped : String)
    (ln ds : Option String)
    (hs : strip_trailing (is_path.length + 1) is_path = some stripped) :
    (∀ data : RfmgrData,
       (env.post (mkdir_sent stripped ln ds) []).succeedsWith data →
       ISM.res (mkdir env is_path ln ds) = .ok true) ∧
    (∀ ch : String, (env.post (mkdir_sent stripped ln ds) []).failsWith ch →
       ((pyIn EXISTS_MSG ch = true ∨ pyIn SHORT_EXISTS_MSG ch = true) →
          ISM.res (mkdir env is_path ln ds) = .ok false) ∧
       (pyIn EXISTS_MSG ch = false → pyIn SHORT_EXISTS_MSG ch = false →
          ISM.res (mkdir env is_path ln ds)
            = .error (.fileAPI ("rfmgr.pl API error: " ++ ch) (some ch)))) := by
  have hn := norm_furl_mkdir (posix_dirname stripped) (posix_basename stripped)
    (pyOrStr ln (posix_basename stripped)) ds
  constructor
  · intro data hp
    have hr := rfmgr_succeeds env _ _ [] data hn hp
    unfold mkdir mkdir_raw
    simp only [hs]
    rw [hr]
    simp [pyTry]
  · intro ch hp
    have hr := rfmgr_fails env _ _ [] ch hn hp
    constructor
    · intro hin
      have hne : ch ≠ "" := by
        rintro rfl
        cases hin with
        | inl h => exact absurd h (by decide)
        | inr h => exact absurd h (by decide)
      unfold mkdir mkdir_raw
      simp only [hs]
      rw [hr]
      cases hin with
      | inl h => simp [pyTry, PyExc.fileAPIError, hne, h]
      | inr h => simp [pyTry, PyExc.fileAPIError, hne, h]
    · intro h1 h2
      unfold mkdir mkdir_raw
      simp only [hs]
      rw [hr]
      simp [pyTry, PyExc.fileAPIError, h1, h2]

/-- Witness for C3: success, both sentinel-containing failures, and a
propagating failure, at concrete oracles. -/
theorem C3_witness :
    ISM.res (mkdir envPostOk "/el/fi/new" none none) = .ok true ∧
    ISM.res (mkdir (envPostErr EXISTS_MSG) "/el/fi/new" none none) = .ok false ∧
    ISM.res (mkdir (envPostErr SHORT_EXISTS_MSG) "/el/fi/new" none none) = .ok false ∧
    ISM.res (mkdir (envPostErr "boom") "/el/fi/new" none none)
      = .error (.fileAPI "rfmgr.pl API error: boom" (some "boom")) := by
  refine ⟨?_, ?_, ?_, ?_⟩
  · exact (C3_mkdir_idempotence envPostOk "/el/fi/new" "/el/fi/new" none none rfl).1
      {} ⟨"\x7b\x7d", rfl, rfl, rfl, rfl⟩
  · exact ((C3_mkdir_idempotence (envPostErr EXISTS_MSG) "/el/fi/new" "/el/fi/new"
      none none rfl).2 EXISTS_MSG
      ⟨"\x7b\x7d", { chyba := some EXISTS_MSG }, rfl, rfl, rfl, rfl⟩).1
      (Or.inl (by decide))
  · exact ((C3_mkdir_idempotence (envPostErr SHORT_EXISTS_MSG) "/el/fi/new" "/el/fi/new"
      none none rfl).2 SHORT_EXISTS_MSG
      ⟨"\x7b\x7d", { chyba := some SHORT_EXISTS_MSG }, rfl, rfl, rfl, rfl⟩).1
      (Or.inr (by decide))
  · exact ((C3_mkdir_idempotence (envPostErr "boom") "/el/fi/new" "/el/fi/new"
      none none rfl).2 "boom"
      ⟨"\x7b\x7d", { chyba := some "boom" }, rfl, rfl, rfl, rfl⟩).2 (by decide) (by decide)

/-! ## C9: termination of the trailing-separator loop -/

/-- A character of `l` other than `'/'` survives stripping trailing
separators. -/
theorem mem_rstripSlashes {c : Char} {l : List Char} (hc : c ∈ l)
    (hne : c ≠ '/') : c ∈ rstripSlashes l := by
  unfold rstripSlashes
  rw [List.mem_reverse]
  have hrev : c ∈ l.reverse := List.mem_reverse.mpr hc
  rw [← List.takeWhile_append_dropWhile (p := fun x => x = '/') (l := l.reverse)]
    at hrev
  rcases List.mem_append.mp hrev with h | h
  · have hp := List.mem_takeWhile_imp h
    exact absurd (of_decide_eq_true hp) hne
  · exact h

/-- Stripping trailing separators from a separator-terminated list
strictly shortens it. -/
theorem rstripSlashes_length_lt {l : List Char}
    (h : pyEndsWith ⟨l⟩ "/" = true) :
    (rstripSlashes l).length < l.length := by
  unfold pyEndsWith List.isSuffixOf at h
  cases hr : l.reverse with
  | nil =>
    rw [hr] at h
    simp [List.isPrefixOf] at h
  | cons c t =>
    rw [hr] at h
    simp only [List.isPrefixOf, List.reverse_singleton, Bool.and_eq_true,
      beq_iff_eq] at h
    have hc : c = '/' := h.1.symm
    unfold rstripSlashes
    rw [hr, List.length_reverse]
    have hlen : l.length = t.length + 1 := by
      rw [← List.length_reverse l, hr]
      simp
    rw [hlen, hc]
    have hdw : List.dropWhile (fun x => decide (x = '/')) ('/' :: t)
        = List.dropWhile (fun x => decide (x = '/')) t := by
      simp [List.dropWhile]
    rw [hdw]
    exact Nat.lt_succ_of_le (List.Sublist.length_le (List.dropWhile_sublist _))

/-- On a separator-terminated path holding some non-separator character,
`posixpath.dirname` is exactly the stripping of trailing separators. -/
theorem posix_dirname_endsSlash (p : String) (he : pyEndsWith p "/" = true)
    (hc : ∃ c ∈ p.data, c ≠ '/') :
    posix_dirname p = ⟨rstripSlashes p.data⟩ := by
  have hfind : rfindSlashSucc p.data = p.data.length := by
    unfold rfindSlashSucc
    unfold pyEndsWith List.isSuffixOf at he
    cases hr : p.data.reverse with
    | nil =>
      rw [hr] at he
      simp [List.isPrefixOf] at he
    | cons c t =>
      rw [hr] at he
      simp only [List.isPrefixOf, List.reverse_singleton, Bool.and_eq_true,
        beq_iff_eq] at he
      have hcs : c = '/' := he.1.symm
      rw [hcs]
      simp [List.findIdx?]
  unfold posix_dirname
  rw [hfind, List.take_length]
  rw [if_pos]
  constructor
  · obtain ⟨c, hmem, _⟩ := hc
    exact List.ne_nil_of_mem hmem
  · obtain ⟨c, hmem, hne⟩ := hc
    exact List.any_eq_true.mpr ⟨c, hmem, decide_eq_true hne⟩

/-- Fuel `length + 1` suffices for the trailing-separator loop on every
path containing a non-separator character. -/
theorem strip_trailing_terminates :
    ∀ (n : Nat) (p : String), (∃ c ∈ p.data, c ≠ '/') →
      p.data.length ≤ n → ∃ s, strip_trailing (n + 1) p = some s := by
  intro n
  induction n with
  | zero =>
    intro p hc hl
    obtain ⟨c, hmem, _⟩ := hc
    rw [List.length_eq_zero.mp (Nat.le_zero.mp hl)] at hmem
    cases hmem
  | succ k ih =>
    intro p hc hl
    by_cases he : pyEndsWith p "/"
    · have hd := posix_dirname_endsSlash p he hc
      have hlt : (rstripSlashes p.data).length < p.data.length :=
        rstripSlashes_length_lt he
      obtain ⟨c, hmem, hne⟩ := hc
      obtain ⟨s, hs⟩ := ih (posix_dirname p)
        (by rw [hd]; exact ⟨c, mem_rstripSlashes hmem hne, hne⟩)
        (by rw [hd]; exact Nat.lt_succ_iff.mp (Nat.lt_of_lt_of_le hlt hl))
      refine ⟨s, ?_⟩
      unfold strip_trailing
      rw [if_pos he]
      exact hs
    · refine ⟨p, ?_⟩
      unfold strip_trailing
      rw [if_neg he]

/-- C9 counterexample: on the all-separator path `"/"` the normalization
loop of `_mkdir` never terminates — `posixpath.dirname "/" = "/"`, so no
amount of fuel reaches the create-folder call. -/
theorem C9_counterexample : ¬ ∃ n s, strip_trailing n "/" = some s := by
  rintro ⟨n, s, h⟩
  have hall : ∀ m, strip_trailing m "/" = none := by
    intro m
    induction m with
    | zero => rfl
    | succ k ih =>
      have h1 : posix_dirname "/" = "/" := rfl
      have h2 : pyEndsWith "/" "/" = true := rfl
      unfold strip_trailing
      rw [if_pos h2, h1]
      exact ih
  rw [hall n] at h
  cases h

/-- C9 (amended): on every path containing at least one non-separator
character, `_mkdir`'s trailing-separator stripping terminates within
`length` steps, and `mkdir` reaches the create-folder wire call (exactly
one POST, with operation code `vlsl`); on nonempty all-separator paths
the loop diverges. -/
theorem C9_strip_terminates_reaches_wire (is_path : String)
    (h : ∃ c ∈ is_path.data, c ≠ '/') :
    (∃ stripped, strip_trailing (is_path.length + 1) is_path = some stripped) ∧
    (∀ env ln ds, ∃ args,
       ISM.trace (mkdir_raw env is_path ln ds) = [.post args []] ∧
       args.lookup "op" = some "vlsl") := by
  obtain ⟨stripped, hs⟩ :=
    strip_trailing_terminates is_path.length is_path h (Nat.le_refl _)
  refine ⟨⟨stripped, hs⟩, ?_⟩
  intro env ln ds
  refine ⟨mkdir_sent stripped ln ds, ?_, ?_⟩
  · have hn := norm_furl_mkdir (posix_dirname stripped) (posix_basename stripped)
      (pyOrStr ln (posix_basename stripped)) ds
    have ht := rfmgr_trace env _ _ [] hn
    unfold mkdir_raw
    simp only [hs]
    rw [ISM.eta (rfmgr env
      [("op", some "vlsl"), ("furl", some (posix_dirname stripped)),
       ("zkratka_1", some (posix_basename stripped)),
       ("nazev_1", some (pyOrStr ln (posix_basename stripped))),
       ("popis_1", ds)] []), ht]
    cases hres : ISM.res (rfmgr env
      [("op", some "vlsl"), ("furl", some (posix_dirname stripped)),
       ("zkratka_1", some (posix_basename stripped)),
       ("nazev_1", some (pyOrStr ln (posix_basename stripped))),
       ("popis_1", ds)] []) with
    | ok d => simp [pyTry, mkdir_sent]
    | error e =>
      cases hfa : PyExc.fileAPIError e with
      | none => simp [pyTry, hfa, mkdir_sent]
      | some oae =>
        cases oae with
        | none => simp [pyTry, hfa, mkdir_sent]
        | some ae =>
          by_cases hcond : ae ≠ "" ∧ (pyIn EXISTS_MSG ae = true ∨ pyIn SHORT_EXISTS_MSG ae = true)
          · simp [pyTry, hfa, hcond, mkdir_sent]
          · simp [pyTry, hfa, hcond, mkdir_sent]
  · rfl

/-- Witness for the amended C9 at a concrete path and oracle. -/
theorem C9_witness :
    (∃ stripped,
       strip_trailing ("/el/fi/x/".length + 1) "/el/fi/x/" = some stripped) ∧
    (∃ args, ISM.trace (mkdir_raw envPostOk "/el/fi/x/" none none)
        = [.post args []] ∧ args.lookup "op" = some "vlsl") := by
  have h := C9_strip_terminates_reaches_wire "/el/fi/x/" (by decide)
  exact ⟨h.1, h.2 envPostOk none none⟩

/-! ## C1 and C2: conflict-aware upload -/

/-- Traces without POSTs contribute no upload calls. -/
theorem upload_calls_of_no_posts (t : List WireCall) (h : postArgs t = []) :
    upload_calls t = [] := by
  unfold upload_calls
  rw [h]
  rfl

theorem upload_calls_get (u : String) : upload_calls [.get u] = [] := rfl

theorem postArgs_nil : postArgs [] = [] := rfl

/-- C1: under `UpdateIfDifferent` on a listed entry, a difference in long
name or description — or, when both match, in the downloaded bytes —
yields exactly one upload wire call carrying the `Overwrite` code `wr`;
when name, description and bytes are all identical, the function returns
with zero upload wire calls. -/
theorem C1_upload_update_if_different (env : Env)
    (file_path is_path : String) (as_path0 long_name description : Option String)
    (as_path basename furl : String) (ls m : Meta)
    (hap : as_path = as_path0.getD (posix_basename file_path))
    (hbn : basename = posix_basename as_path)
    (hfurl : furl = posix_normpath (posix_join is_path (posix_dirname as_path)))
    (hls : ISM.res (list_directory env (.path furl)) = .ok ls)
    (hm : dir_get (Meta.entries ls) basename = some m) :
    ((long_name ≠ MetaCore.name (Meta.core m)
        ∨ description ≠ MetaCore.annotation (Meta.core m)) →
      upload_calls (ISM.trace (upload_file env file_path is_path as_path0
          long_name description .UpdateIfDifferent))
        = [upload_sent furl basename long_name description "wr"] ∧
      (upload_sent furl basename long_name description "wr").lookup "kolize"
        = some "wr") ∧
    (long_name = MetaCore.name (Meta.core m) →
     description = MetaCore.annotation (Meta.core m) →
      ∀ fd : FileData, ISM.res (get_file env (.meta m)) = .ok fd →
        (fd.data ≠ env.localFile file_path →
          upload_calls (ISM.trace (upload_file env file_path is_path as_path0
              long_name description .UpdateIfDifferent))
            = [upload_sent furl basename long_name description "wr"] ∧
          (upload_sent furl basename long_name description "wr").lookup "kolize"
            = some "wr") ∧
        (fd.data = env.localFile file_path →
          ISM.res (upload_file env file_path is_path as_path0
              long_name description .UpdateIfDifferent) = .ok () ∧
          postArgs (ISM.trace (upload_file env file_path is_path as_path0
              long_name description .UpdateIfDifferent)) = [])) := by
  subst hap
  subst hbn
  subst hfurl
  have hld : list_directory env
      (.path (posix_normpath (posix_join is_path
        (posix_dirname (as_path0.getD (posix_basename file_path))))))
      = (.ok ls, [.get (fmgr_api_url (posix_normpath (posix_join is_path
          (posix_dirname (as_path0.getD (posix_basename file_path))))))]) := by
    rw [ISM.eta (list_directory env (.path (posix_normpath (posix_join is_path
      (posix_dirname (as_path0.getD (posix_basename file_path))))))),
      list_directory_trace, hls]
    rfl
  constructor
  · intro hdiff
    simp only [upload_file]
    simp only [or_true, true_or, if_true]
    rw [hld]
    simp only [ISM.bind_eq, ISM.bind'_ok, hm]
    rw [if_neg (by intro hx; cases hx), if_pos hdiff]
    rw [upload_post_run env file_path _ _ long_name description .Overwrite "wr" rfl]
    rw [ISM.trace_mk, upload_calls_append, upload_calls_get,
      upload_calls_single _ _ (upload_sent_op _ _ _ _ _)]
    exact ⟨rfl, upload_sent_kolize _ _ _ _ _⟩
  · intro hname hdesc fd hfd
    have hcond : ¬(long_name ≠ MetaCore.name (Meta.core m)
        ∨ description ≠ MetaCore.annotation (Meta.core m)) := by
      rintro (hx | hx)
      · exact hx hname
      · exact hx hdesc
    have hgf : get_file env (.meta m)
        = (.ok fd, ISM.trace (get_file env (.meta m))) := by
      rw [ISM.eta (get_file env (.meta m)), hfd]
      rfl
    constructor
    · intro hbd
      simp only [upload_file]
      simp only [or_true, true_or, if_true]
      rw [hld]
      simp only [ISM.bind_eq, ISM.bind'_ok, hm]
      rw [if_neg (by intro hx; cases hx), if_neg hcond, hgf]
      simp only [ISM.bind_eq, ISM.bind'_ok]
      rw [if_pos hbd]
      rw [upload_post_run env file_path _ _ long_name description .Overwrite "wr" rfl]
      simp only [ISM.trace_mk, upload_calls_append, upload_calls_get,
        List.nil_append, List.append_nil]
      rw [upload_calls_of_no_posts _ (get_file_no_posts env (.meta m))]
      simp only [List.nil_append]
      rw [upload_calls_single _ _ (upload_sent_op _ _ _ _ _)]
      exact ⟨rfl, upload_sent_kolize _ _ _ _ _⟩
    · intro hbe
      have hnbd : ¬(fd.data ≠ env.localFile file_path) := fun hx => hx hbe
      constructor
      · simp only [upload_file]
        simp only [or_true, true_or, if_true]
        rw [hld]
        simp only [ISM.bind_eq, ISM.bind'_ok, hm]
        rw [if_neg (by intro hx; cases hx), if_neg hcond, hgf]
        simp only [ISM.bind_eq, ISM.bind'_ok]
        rw [if_neg hnbd]
        simp
      · simp only [upload_file]
        simp only [or_true, true_or, if_true]
        rw [hld]
        simp only [ISM.bind_eq, ISM.bind'_ok, hm]
        rw [if_neg (by intro hx; cases hx), if_neg hcond, hgf]
        simp only [ISM.bind_eq, ISM.bind'_ok]
        rw [if_neg hnbd]
        simp only [ISM.pure_eq, ISM.trace_mk, postArgs_append, postArgs_get,
          List.nil_append, List.append_nil, get_file_no_posts, postArgs_nil]

/-- Witness for C1 at the fixture oracle: a long-name difference and a
byte difference each produce the one `wr` upload; full identity produces
zero POSTs. -/
theorem C1_witness :
    (upload_calls (ISM.trace (upload_file envW "local.txt" "/dir" none
        none none .UpdateIfDifferent))
      = [upload_sent "/dir" "local.txt" none none "wr"] ∧
     (upload_sent "/dir" "local.txt" none none "wr").lookup "kolize" = some "wr") ∧
    (upload_calls (ISM.trace (upload_file envW3 "local.txt" "/dir" none
        (some "local.txt") none .UpdateIfDifferent))
      = [upload_sent "/dir" "local.txt" (some "local.txt") none "wr"] ∧
     (upload_sent "/dir" "local.txt" (some "local.txt") none "wr").lookup "kolize"
       = some "wr") ∧
    (ISM.res (upload_file envW "local.txt" "/dir" none (some "local.txt") none
        .UpdateIfDifferent) = .ok () ∧
     postArgs (ISM.trace (upload_file envW "local.txt" "/dir" none
        (some "local.txt") none .UpdateIfDifferent)) = []) := by
  refine ⟨?_, ?_, ?_⟩
  · exact (C1_upload_update_if_different envW "local.txt" "/dir" none none none
      "local.txt" "local.txt" "/dir" lsW (Meta.file metaFileW)
      rfl rfl rfl rfl rfl).1 (Or.inl (by decide))
  · exact ((C1_upload_update_if_different envW3 "local.txt" "/dir" none
      (some "local.txt") none "local.txt" "local.txt" "/dir" lsW
      (Meta.file metaFileW) rfl rfl rfl rfl rfl).2 rfl rfl
      { data := [1, 2], charset := some "utf-8", content_type := "text/plain",
        meta := some (Meta.file metaFileW) } rfl).1 (by decide)
  · exact ((C1_upload_update_if_different envW "local.txt" "/dir" none
      (some "local.txt") none "local.txt" "local.txt" "/dir" lsW
      (Meta.file metaFileW) rfl rfl rfl rfl rfl).2 rfl rfl
      { data := [1, 2], charset := some "utf-8", content_type := "text/plain",
        meta := some (Meta.file metaFileW) } rfl).2 rfl

/-- C2: under `Ignore` on a listed entry the function returns at once
with zero POSTs; when no entry matches, both `Ignore` and
`UpdateIfDifferent` send the single upload with the `Error` code `er`. -/
theorem C2_upload_ignore_and_absent (env : Env)
    (file_path is_path : String) (as_path0 long_name description : Option String)
    (as_path basename furl : String) (ls : Meta)
    (hap : as_path = as_path0.getD (posix_basename file_path))
    (hbn : basename = posix_basename as_path)
    (hfurl : furl = posix_normpath (posix_join is_path (posix_dirname as_path)))
    (hls : ISM.res (list_directory env (.path furl)) = .ok ls) :
    (∀ m : Meta, dir_get (Meta.entries ls) basename = some m →
      ISM.res (upload_file env file_path is_path as_path0
          long_name description .Ignore) = .ok () ∧
      postArgs (ISM.trace (upload_file env file_path is_path as_path0
          long_name description .Ignore)) = []) ∧
    (dir_get (Meta.entries ls) basename = none →
      upload_calls (ISM.trace (upload_file env file_path is_path as_path0
          long_name description .Ignore))
        = [upload_sent furl basename long_name description "er"] ∧
      upload_calls (ISM.trace (upload_file env file_path is_path as_path0
          long_name description .UpdateIfDifferent))
        = [upload_sent furl basename long_name description "er"] ∧
      (upload_sent furl basename long_name description "er").lookup "kolize"
        = some "er") := by
  subst hap
  subst hbn
  subst hfurl
  have hld : list_directory env
      (.path (posix_normpath (posix_join is_path
        (posix_dirname (as_path0.getD (posix_basename file_path))))))
      = (.ok ls, [.get (fmgr_api_url (posix_normpath (posix_join is_path
          (posix_dirname (as_path0.getD (posix_basename file_path))))))]) := by
    rw [ISM.eta (list_directory env (.path (posix_normpath (posix_join is_path
      (posix_dirname (as_path0.getD (posix_basename file_path))))))),
      list_directory_trace, hls]
    rfl
  constructor
  · intro m hm
    constructor
    · simp only [upload_file]
      simp only [or_true, true_or, if_true]
      rw [hld]
      simp only [ISM.bind_eq, ISM.bind'_ok, hm]
      simp
    · simp only [upload_file]
      simp only [or_true, true_or, if_true]
      rw [hld]
      simp only [ISM.bind_eq, ISM.bind'_ok, hm]
      simp [postArgs, List.filterMap]
  · intro hm
    refine ⟨?_, ?_, upload_sent_kolize _ _ _ _ _⟩
    · simp only [upload_file]
      simp only [or_true, true_or, if_true]
      rw [hld]
      simp only [ISM.bind_eq, ISM.bind'_ok, hm]
      rw [upload_post_run env file_path _ _ long_name description .Error "er" rfl]
      rw [ISM.trace_mk, upload_calls_append, upload_calls_get,
        upload_calls_single _ _ (upload_sent_op _ _ _ _ _)]
      rfl
    · simp only [upload_file]
      simp only [or_true, true_or, if_true]
      rw [hld]
      simp only [ISM.bind_eq, ISM.bind'_ok, hm]
      rw [upload_post_run env file_path _ _ long_name description .Error "er" rfl]
      rw [ISM.trace_mk, upload_calls_append, upload_calls_get,
        upload_calls_single _ _ (upload_sent_op _ _ _ _ _)]
      rfl

/-- Witness for C2 at the fixture oracle: present entry under `Ignore`
(zero POSTs), absent entry under both client-side policies (`er`). -/
theorem C2_witness :
    (ISM.res (upload_file envW "local.txt" "/dir" none none none .Ignore)
       = .ok () ∧
     postArgs (ISM.trace (upload_file envW "local.txt" "/dir" none none none
       .Ignore)) = []) ∧
    (upload_calls (ISM.trace (upload_file envW "other.txt" "/dir" none none none
        .Ignore)) = [upload_sent "/dir" "other.txt" none none "er"] ∧
     upload_calls (ISM.trace (upload_file envW "other.txt" "/dir" none none none
        .UpdateIfDifferent)) = [upload_sent "/dir" "other.txt" none none "er"] ∧
     (upload_sent "/dir" "other.txt" none none "er").lookup "kolize" = some "er") := by
  constructor
  · exact (C2_upload_ignore_and_absent envW "local.txt" "/dir" none none none
      "local.txt" "local.txt" "/dir" lsW rfl rfl rfl rfl).1
      (Meta.file metaFileW) rfl
  · exact (C2_upload_ignore_and_absent envW "other.txt" "/dir" none none none
      "other.txt" "other.txt" "/dir" lsW rfl rfl rfl rfl).2 rfl

/-! ## C8: the drop-folder protocol -/

theorem zmpr2_sent_eq (base created : String) :
    drop_none_args [("op", some "zmpr2"), ("furl", some (ensure_slash base)),
      ("akce", some "zxpro"), ("ch", some created)] = zmpr2_sent base created := rfl

theorem zmpr_sent_eq (base created nm : String) :
    drop_none_args [("op", some "zmpr"), ("pridat", some nm),
      ("furl", some (ensure_slash base)), ("ch", some created)]
      = zmpr_sent base created nm := rfl

theorem zmat_sent_eq (base created : String) :
    drop_none_args [("op", some "zmat"),
      ("d_atributy_0_pridatprijm", some "pridatprijm"),
      ("d_atributy_0_pridatuco", some "pridatuco"),
      ("d_atributy_0_vsechnacteni", some "vsechnacteni"),
      ("churl_0", some created), ("furl", some (ensure_slash base))]
      = zmat_sent base created := rfl

/-- C8: `mkdrop` returns false at once — with no wire call beyond the
create attempt — when the directory already existed; otherwise it opens
the permission view, adds the deadline-bounded write grant
`mode@YYYYMMDDHHMM` only when a deadline is supplied (the mode token read
from the view's response), unconditionally sets the three per-file
attributes, and returns true. -/
theorem C8_mkdrop_protocol (env : Env) (is_path : String)
    (ln ds : Option String) (dl : Option DeadlineInstant)
    (created base : String)
    (hcr : created = ensure_slash is_path)
    (hba : base = posix_dirname (posix_dirname created)) :
    (ISM.res (mkdir_raw env is_path ln ds) = .ok none →
      ISM.res (mkdrop env is_path ln ds dl) = .ok false ∧
      ISM.trace (mkdrop env is_path ln ds dl)
        = ISM.trace (mkdir_raw env is_path ln ds)) ∧
    (∀ (d0 data2 : RfmgrData) (row row2 js prava w : JVal) (mode : String)
       (dt : DeadlineInstant) (data3 data4 : RfmgrData),
      ISM.res (mkdir_raw env is_path ln ds) = .ok (some d0) →
      (env.post (zmpr2_sent base created) []).succeedsWith data2 →
      dictIndex data2.rest "pridatRadky" = .ok row →
      jvalIndex row created = .ok row2 →
      jvalIndex row2 "js" = .ok js →
      jvalIndex js "prava" = .ok prava →
      jvalIndex prava "w" = .ok w →
      jvalFirstKey w = .ok mode →
      PostOutcome.succeedsWith
        (env.post (zmpr_sent base created (mode ++ "@" ++ strftime_YmdHM dt)) [])
        data3 →
      (env.post (zmat_sent base created) []).succeedsWith data4 →
      ISM.res (mkdrop env is_path ln ds (some dt)) = .ok true ∧
      ISM.trace (mkdrop env is_path ln ds (some dt))
        = ISM.trace (mkdir_raw env is_path ln ds)
          ++ [.post (zmpr2_sent base created) [],
              .post (zmpr_sent base created (mode ++ "@" ++ strftime_YmdHM dt)) [],
              .post (zmat_sent base created) []]) ∧
    (∀ (d0 data2 data4 : RfmgrData),
      ISM.res (mkdir_raw env is_path ln ds) = .ok (some d0) →
      (env.post (zmpr2_sent base created) []).succeedsWith data2 →
      (env.post (zmat_sent base created) []).succeedsWith data4 →
      ISM.res (mkdrop env is_path ln ds none) = .ok true ∧
      ISM.trace (mkdrop env is_path ln ds none)
        = ISM.trace (mkdir_raw env is_path ln ds)
          ++ [.post (zmpr2_sent base created) [],
              .post (zmat_sent base created) []]) := by
  have hcr2 : (if pyEndsWith is_path "/" then is_path else is_path ++ "/")
      = created := hcr.symm
  have hba2 : posix_dirname (posix_dirname created) = base := hba.symm
  refine ⟨?_, ?_, ?_⟩
  · intro h0
    have hmk := ISM.eta (mkdir_raw env is_path ln ds)
    rw [h0] at hmk
    constructor
    · simp only [mkdrop]
      rw [hmk]
      simp
    · simp only [mkdrop]
      rw [hmk]
      simp
  · intro d0 data2 row row2 js prava w mode dt data3 data4 h0 h2 hrow hrow2
      hjs hpr hw hk h3 h4
    have hmk := ISM.eta (mkdir_raw env is_path ln ds)
    rw [h0] at hmk
    have hp2 : (env.post (drop_none_args
        [("op", some "zmpr2"), ("furl", some (ensure_slash base)),
         ("akce", some "zxpro"), ("ch", some created)]) []).succeedsWith data2 := h2
    have h2eq := rfmgr_succeeds env
      [("op", some "zmpr2"), ("furl", some base), ("akce", some "zxpro"),
       ("ch", some created)] _ [] data2 (norm_furl_zmpr2 base created) hp2
    rw [zmpr2_sent_eq] at h2eq
    have hp3 : PostOutcome.succeedsWith (env.post (drop_none_args
        [("op", some "zmpr"), ("pridat", some (mode ++ "@" ++ strftime_YmdHM dt)),
         ("furl", some (ensure_slash base)), ("ch", some created)]) []) data3 := h3
    have h3eq := rfmgr_succeeds env
      [("op", some "zmpr"), ("pridat", some (mode ++ "@" ++ strftime_YmdHM dt)),
       ("furl", some base), ("ch", some created)] _ [] data3
      (norm_furl_zmpr base created (mode ++ "@" ++ strftime_YmdHM dt)) hp3
    rw [zmpr_sent_eq] at h3eq
    have hp4 : PostOutcome.succeedsWith (env.post (drop_none_args
        [("op", some "zmat"),
         ("d_atributy_0_pridatprijm", some "pridatprijm"),
         ("d_atributy_0_pridatuco", some "pridatuco"),
         ("d_atributy_0_vsechnacteni", some "vsechnacteni"),
         ("churl_0", some created), ("furl", some (ensure_slash base))]) []) data4 := h4
    have h4eq := rfmgr_succeeds env
      [("op", some "zmat"),
       ("d_atributy_0_pridatprijm", some "pridatprijm"),
       ("d_atributy_0_pridatuco", some "pridatuco"),
       ("d_atributy_0_vsechnacteni", some "vsechnacteni"),
       ("churl_0", some created), ("furl", some base)] _ [] data4
      (norm_furl_zmat base created) hp4
    rw [zmat_sent_eq] at h4eq
    constructor
    · simp only [mkdrop]
      rw [hmk]
      simp only [ISM.bind_eq, ISM.bind'_ok]
      rw [hcr2, hba2, h2eq]
      simp only [ISM.bind_eq, ISM.bind'_ok, hrow, hrow2, hjs, hpr, hw, hk,
        liftExc_ok, List.nil_append, List.append_nil]
      rw [h3eq]
      simp only [ISM.bind_eq, ISM.bind'_ok, List.nil_append, List.append_nil]
      rw [h4eq]
      simp
    · simp only [mkdrop]
      rw [hmk]
      simp only [ISM.bind_eq, ISM.bind'_ok]
      rw [hcr2, hba2, h2eq]
      simp only [ISM.bind_eq, ISM.bind'_ok, hrow, hrow2, hjs, hpr, hw, hk,
        liftExc_ok, List.nil_append, List.append_nil]
      rw [h3eq]
      simp only [ISM.bind_eq, ISM.bind'_ok, List.nil_append, List.append_nil]
      rw [h4eq]
      simp
  · intro d0 data2 data4 h0 h2 h4
    have hmk := ISM.eta (mkdir_raw env is_path ln ds)
    rw [h0] at hmk
    have hp2 : (env.post (drop_none_args
        [("op", some "zmpr2"), ("furl", some (ensure_slash base)),
         ("akce", some "zxpro"), ("ch", some created)]) []).succeedsWith data2 := h2
    have h2eq := rfmgr_succeeds env
      [("op", some "zmpr2"), ("furl", some base), ("akce", some "zxpro"),
       ("ch", some created)] _ [] data2 (norm_furl_zmpr2 base created) hp2
    rw [zmpr2_sent_eq] at h2eq
    have hp4 : PostOutcome.succeedsWith (env.post (drop_none_args
        [("op", some "zmat"),
         ("d_atributy_0_pridatprijm", some "pridatprijm"),
         ("d_atributy_0_pridatuco", some "pridatuco"),
         ("d_atributy_0_vsechnacteni", some "vsechnacteni"),
         ("churl_0", some created), ("furl", some (ensure_slash base))]) []) data4 := h4
    have h4eq := rfmgr_succeeds env
      [("op", some "zmat"),
       ("d_atributy_0_pridatprijm", some "pridatprijm"),
       ("d_atributy_0_pridatuco", some "pridatuco"),
       ("d_atributy_0_vsechnacteni", some "vsechnacteni"),
       ("churl_0", some created), ("furl", some base)] _ [] data4
      (norm_furl_zmat base created) hp4
    rw [zmat_sent_eq] at h4eq
    constructor
    · simp only [mkdrop]
      rw [hmk]
      simp only [ISM.bind_eq, ISM.bind'_ok]
      rw [hcr2, hba2, h2eq]
      simp only [ISM.bind_eq, ISM.bind'_ok, List.nil_append, List.append_nil]
      rw [h4eq]
      simp
    · simp only [mkdrop]
      rw [hmk]
      simp only [ISM.bind_eq, ISM.bind'_ok]
      rw [hcr2, hba2, h2eq]
      simp only [ISM.bind_eq, ISM.bind'_ok, List.nil_append, List.append_nil]
      rw [h4eq]
      simp

/-- Witness for C8 at the fixture oracle: existing directory (false, one
attempt only) and the full deadline flow (`156a@202603050930`). -/
theorem C8_witness :
    (ISM.res (mkdrop (envPostErr EXISTS_MSG) "/el/fi/drop" none none
        (some ⟨2026, 3, 5, 9, 30⟩)) = .ok false ∧
     ISM.trace (mkdrop (envPostErr EXISTS_MSG) "/el/fi/drop" none none
        (some ⟨2026, 3, 5, 9, 30⟩))
       = ISM.trace (mkdir_raw (envPostErr EXISTS_MSG) "/el/fi/drop" none none)) ∧
    (ISM.res (mkdrop envDropW "/el/fi/drop" none none
        (some ⟨2026, 3, 5, 9, 30⟩)) = .ok true ∧
     ISM.trace (mkdrop envDropW "/el/fi/drop" none none
        (some ⟨2026, 3, 5, 9, 30⟩))
       = ISM.trace (mkdir_raw envDropW "/el/fi/drop" none none)
         ++ [.post (zmpr2_sent "/el/fi" "/el/fi/drop/") [],
             .post (zmpr_sent "/el/fi" "/el/fi/drop/" "156a@202603050930") [],
             .post (zmat_sent "/el/fi" "/el/fi/drop/") []]) := by
  constructor
  · exact (C8_mkdrop_protocol (envPostErr EXISTS_MSG) "/el/fi/drop" none none
      (some ⟨2026, 3, 5, 9, 30⟩) "/el/fi/drop/" "/el/fi" rfl rfl).1 rfl
  · exact (C8_mkdrop_protocol envDropW "/el/fi/drop" none none
      (some ⟨2026, 3, 5, 9, 30⟩) "/el/fi/drop/" "/el/fi" rfl rfl).2.1
      {} dropRespW
      (.jobj [("/el/fi/drop/", .jobj
        [("js", .jobj [("prava", .jobj [("w", pravaW)])])])])
      (.jobj [("js", .jobj [("prava", .jobj [("w", pravaW)])])])
      (.jobj [("prava", .jobj [("w", pravaW)])])
      (.jobj [("w", pravaW)]) pravaW "156a" ⟨2026, 3, 5, 9, 30⟩ {} {}
      rfl ⟨"\x7b\x7d", rfl, rfl, rfl, rfl⟩ rfl rfl rfl rfl rfl rfl
      ⟨"\x7b\x7d", rfl, rfl, rfl, rfl⟩ ⟨"\x7b\x7d", rfl, rfl, rfl, rfl⟩

end IS
